import Mathlib

/-!
Verification development for the ArtCanvas.js layered 2D vector-drawing
engine (src/ArtCanvas.js).  The JavaScript source is shallowly embedded:

* JS numbers are idealised as real numbers `ℝ`; a value that may be `NaN`
  (the result of `parseFloat`/`parseInt` on non-numeric input, or an
  `undefined` read used in arithmetic) is modelled as `Option ℝ` with
  `none` standing for `NaN`.
* Mutable objects become immutable structures; each method becomes a
  function from the old structure to the new one.
* DOM pixel surfaces are modelled as a list of render commands: `clearRect`
  empties the list, each stroke/fill/fillText appends a command carrying
  the current transformation matrix and style, `getImageData` snapshots the
  list and `putImageData` restores it.
* Operations that would throw a `TypeError` in the source (method access on
  `undefined`) return `none` in an `Option`-valued result.
-/

set_option autoImplicit false

namespace ArtCanvas

/-- JS `parseInt` applied to a (finite) number: the number is truncated
toward zero.  (The source applies `parseInt` only to on-screen sized
values, far below 1e21 where JS string conversion would switch to
scientific notation.) -/
noncomputable def jsTrunc (x : ℝ) : ℝ :=
  if x < 0 then -(Int.floor (-x) : ℝ) else (Int.floor x : ℝ)

/-- Digits of a decimal string prefix, as a natural number; `none` when the
prefix holds no digit (JS `parseInt` returns `NaN` then). -/
def digitsToNat? (cs : List Char) : Option ℕ :=
  if cs.isEmpty then none
  else some (cs.foldl (fun a ch => 10 * a + (ch.toNat - '0'.toNat)) 0)

/-- JS `parseInt` applied to a string such as a CSS length ("16px"):
leading spaces are skipped, an optional sign is read, then the longest
digit prefix; `none` models the `NaN` result. -/
def jsParseIntStr (s : String) : Option ℤ :=
  match s.data.dropWhile (fun ch => ch = ' ') with
  | '-' :: rest => (digitsToNat? (rest.takeWhile Char.isDigit)).map (fun n => -(n : ℤ))
  | '+' :: rest => (digitsToNat? (rest.takeWhile Char.isDigit)).map (fun n => (n : ℤ))
  | cs => (digitsToNat? (cs.takeWhile Char.isDigit)).map (fun n => (n : ℤ))

/-- JS `String(x).toLowerCase()` on an ASCII status string, written over
the character list so that it evaluates by `decide`/`rfl`. -/
def jsToLower (s : String) : String := ⟨s.data.map Char.toLower⟩

/-- JS `Number.MAX_VALUE`, used by `getCenterPoint` to seed the running
minimum of a bounding box. -/
noncomputable def jsMaxValue : ℝ := (2 - 2 ^ (-52 : ℤ)) * 2 ^ (1023 : ℕ)

/-- The `Point` class: a coordinate pair.  The constructor parses both
arguments with `parseFloat` and falls back to `0` on `NaN`, so the stored
fields are always actual numbers. -/
structure Point where
  x : ℝ
  y : ℝ


/-- The `Point` constructor: `this.x = 0; var x = parseFloat(pointX);
if (!isNaN(x)) this.x = x` and likewise for `y`. -/
def Point.make (pointX pointY : Option ℝ) : Point :=
  { x := match pointX with
         | some v => v
         | none => 0
    y := match pointY with
         | some v => v
         | none => 0 }

/-- `Point.getOffsetPoint(point1, point2)`: componentwise difference,
repackaged through the defensive constructor. -/
def Point.getOffsetPoint (point1 point2 : Point) : Point :=
  Point.make (some (point2.x - point1.x)) (some (point2.y - point1.y))

/-- `Point.getDistance(point1, point2)`:
`Math.sqrt(Math.pow(offset.x, 2) + Math.pow(offset.y, 2))`. -/
noncomputable def Point.getDistance (point1 point2 : Point) : ℝ :=
  Real.sqrt ((Point.getOffsetPoint point1 point2).x ^ 2 +
             (Point.getOffsetPoint point1 point2).y ^ 2)

/-- The `Rectangle` class: `(top, left, width, height)`.  `top`/`left`
default to `0` on `NaN`; `width`/`height` are kept only when the parsed
value compares `>= 0` (so both `NaN` and negative input give `0`). -/
structure Rectangle where
  top : ℝ
  left : ℝ
  width : ℝ
  height : ℝ


/-- The `Rectangle` constructor. -/
noncomputable def Rectangle.make (top left width height : Option ℝ) : Rectangle :=
  { top := match top with
           | some v => v
           | none => 0
    left := match left with
            | some v => v
            | none => 0
    width := match width with
             | some v => if 0 ≤ v then v else 0
             | none => 0
    height := match height with
              | some v => if 0 ≤ v then v else 0
              | none => 0 }

/-- The `Circle` class: center plus radius; the radius is kept only when
the parsed value compares `>= 0`. -/
structure Circle where
  centerX : ℝ
  centerY : ℝ
  radius : ℝ


/-- The `Circle` constructor (extra arguments passed at the call sites in
`_figure` are ignored by the three-parameter constructor). -/
noncomputable def Circle.make (centerX centerY radius : Option ℝ) : Circle :=
  { centerX := match centerX with
               | some v => v
               | none => 0
    centerY := match centerY with
               | some v => v
               | none => 0
    radius := match radius with
              | some v => if 0 ≤ v then v else 0
              | none => 0 }

/-- The `Line` class: start and end points.  (Every construction site in
the source passes genuine `Point` instances, so the `instanceof` guards of
the constructor always succeed; the fields are modelled as plain points.) -/
structure Line where
  startPoint : Point
  endPoint : Point


/-- The `Font` class: three CSS-like strings. -/
structure Font where
  family : String
  style : String
  size : String


/-- `Font.prototype.getFontString`. -/
def Font.getFontString (f : Font) : String :=
  f.style ++ " " ++ f.size ++ " " ++ "\"" ++ f.family ++ "\""

/-- The `TextStyle` class.  (Every in-repo construction passes a genuine
`Font`, so the `instanceof` guard succeeds.) -/
structure TextStyle where
  font : Font
  color : String


/-- The `Text` shape class.  (The only in-repo construction site,
`drawText`, checks `textStyle instanceof TextStyle` before constructing,
so the style field is modelled as present.) -/
structure Text where
  text : String
  point : Point
  textStyle : TextStyle


/-- One entry of a layer's `paths` list: either a JS array of points (a
freehand stroke, or the one-point anchor pushed at pointer-down), or a
committed shape object. -/
inductive PathEntry where
  | strokePath (pts : List Point)
  | rect (r : Rectangle)
  | circle (c : Circle)
  | line (l : Line)
  | text (t : Text)


/-- Status-string constants of the static `Mode` class. -/
def Mode.HAND : String := "hand"

def Mode.FIGURE : String := "figure"

def Mode.TEXT : String := "text"

def Mode.TOOL : String := "tool"

def Mode.TRANSFORM : String := "transform"

/-- Figure-kind constants of the static `Figure` class. -/
def Figure.RECTANGLE : String := "rectangle"

def Figure.CIRCLE : String := "circle"

def Figure.LINE : String := "line"

/-- Transform-kind constants of the static `Transform` class. -/
def Transform.TRANSLATE : String := "translate"

def Transform.SCALE : String := "scale"

def Transform.ROTATE : String := "rotate"

/-- An `{x : ..., y : ...}` record of the per-layer transform state. -/
structure XY where
  x : ℝ
  y : ℝ


/-- The per-layer `this.transforms` record: accumulated translate, scale,
skew (reserved, never written) and rotation in radians. -/
structure Transforms where
  translate : XY
  scale : XY
  skew : XY
  rotate : ℝ


/-- The initial transform state installed by the `Canvas` constructor. -/
def Transforms.initial : Transforms :=
  { translate := ⟨0, 0⟩, scale := ⟨1, 1⟩, skew := ⟨0, 0⟩, rotate := 0 }

/-- An affine matrix in HTML-canvas parameter order `(a, b, c, d, e, f)`:
the map sends `(x, y)` to `(a*x + c*y + e, b*x + d*y + f)`. -/
structure Affine where
  a : ℝ
  b : ℝ
  c : ℝ
  d : ℝ
  e : ℝ
  f : ℝ


/-- The identity matrix, as installed by `setTransform(1, 0, 0, 1, 0, 0)`. -/
def Affine.identity : Affine := ⟨1, 0, 0, 1, 0, 0⟩

/-- `context.transform(N)` semantics: the current matrix `M` is replaced by
the product `M ⋅ N`, so `N` acts on points first. -/
noncomputable def Affine.mul (M N : Affine) : Affine :=
  { a := M.a * N.a + M.c * N.b
    b := M.b * N.a + M.d * N.b
    c := M.a * N.c + M.c * N.d
    d := M.b * N.c + M.d * N.d
    e := M.a * N.e + M.c * N.f + M.e
    f := M.b * N.e + M.d * N.f + M.f }

/-- A pure translation matrix `transform(1, 0, 0, 1, x, y)`. -/
def Affine.translationBy (x y : ℝ) : Affine := ⟨1, 0, 0, 1, x, y⟩

/-- The `rotateMatrix` array built inside `Canvas.prototype.transform`:
`[cos r, sin r, -sin r, cos r, 0, 0]`. -/
noncomputable def rotateMatrix (r : ℝ) : Affine :=
  ⟨Real.cos r, Real.sin r, -Real.sin r, Real.cos r, 0, 0⟩

/-- The `transform(scales.x, 0, 0, scales.y, translates.x, translates.y)`
matrix: stored scale and translate in one step. -/
def scaleTranslateMatrix (ts : Transforms) : Affine :=
  ⟨ts.scale.x, 0, 0, ts.scale.y, ts.translate.x, ts.translate.y⟩

/-- Rotation about a pivot, in closed form: the product
`T(pivot) ⋅ R(r) ⋅ T(-pivot)` written out.  Used to state the
composition-order property of the pixel mapping. -/
noncomputable def rotateAboutPivot (cp : Point) (r : ℝ) : Affine :=
  { a := Real.cos r
    b := Real.sin r
    c := -Real.sin r
    d := Real.cos r
    e := cp.x - cp.x * Real.cos r + cp.y * Real.sin r
    f := cp.y - cp.x * Real.sin r - cp.y * Real.cos r }

/-- One drawing command recorded on a layer's pixel surface.  Each carries
the transformation matrix in force when it was emitted plus the style
values it consumed. -/
inductive RenderCmd where
  | seg (m : Affine) (p q : Point) (stroke : String) (lineWidth : ℝ)
  | rectCmd (m : Affine) (x y w h : ℝ) (stroke fill : String) (lineWidth : ℝ)
  | arc (m : Affine) (cx cy radius : ℝ) (stroke fill : String) (lineWidth : ℝ)
  | textCmd (m : Affine) (s : String) (x : ℝ) (y : Option ℝ) (font fill : String)


/-- The matrix a render command was emitted under. -/
def RenderCmd.matrixOf : RenderCmd → Affine
  | .seg m _ _ _ _ => m
  | .rectCmd m _ _ _ _ _ _ _ => m
  | .arc m _ _ _ _ _ _ => m
  | .textCmd m _ _ _ _ _ => m

/-- The mutable state of a layer's `CanvasRenderingContext2D` that the
source reads or writes: style values, the current transformation matrix
and the pixel surface (as the list of commands drawn since the last
`clearRect`). -/
structure Ctx where
  strokeStyle : String
  fillStyle : String
  globalAlpha : ℝ
  lineWidth : ℝ
  lineCap : String
  lineJoin : String
  font : String
  matrix : Affine
  surface : List RenderCmd


/-- The context state right after the `Canvas` constructor ran. -/
def Ctx.initial : Ctx :=
  { strokeStyle := "rgba(0, 0, 0, 1.0)"
    fillStyle := "rgba(0, 0, 0, 0.0)"
    globalAlpha := 1
    lineWidth := 1
    lineCap := "round"
    lineJoin := "miter"
    font := "10px sans-serif"
    matrix := Affine.identity
    surface := [] }

/-- Consecutive stroked segments of a freehand point array, as drawn by the
`Array.isArray` branch of `Canvas.prototype.draw` (each `lineTo`/`stroke`
pair inks the segment between neighbouring points). -/
def segCmds (m : Affine) (stroke : String) (lw : ℝ) : List Point → List RenderCmd
  | p :: q :: rest => RenderCmd.seg m p q stroke lw :: segCmds m stroke lw (q :: rest)
  | _ => []

/-- One iteration of the loop body of `Canvas.prototype.draw`: emits the
entry's drawing commands under the current matrix and styles.  The `Text`
branch switches `context.font` (which persists) and restores the previous
`fillStyle` by hand after `fillText`. -/
def Ctx.drawEntry (ctx : Ctx) (p : PathEntry) : Ctx :=
  match p with
  | .strokePath pts =>
      { ctx with surface := ctx.surface ++ segCmds ctx.matrix ctx.strokeStyle ctx.lineWidth pts }
  | .rect r =>
      -- the source passes `(top, left, width, height)` to `context.rect`,
      -- whose parameter order is `(x, y, w, h)`
      { ctx with surface := ctx.surface ++
          [RenderCmd.rectCmd ctx.matrix r.top r.left r.width r.height
            ctx.strokeStyle ctx.fillStyle ctx.lineWidth] }
  | .circle c =>
      { ctx with surface := ctx.surface ++
          [RenderCmd.arc ctx.matrix c.centerX c.centerY c.radius
            ctx.strokeStyle ctx.fillStyle ctx.lineWidth] }
  | .line l =>
      { ctx with surface := ctx.surface ++
          [RenderCmd.seg ctx.matrix l.startPoint l.endPoint ctx.strokeStyle ctx.lineWidth] }
  | .text t =>
      { ctx with
          font := t.textStyle.font.getFontString
          surface := ctx.surface ++
            [RenderCmd.textCmd ctx.matrix t.text t.point.x (some t.point.y)
              t.textStyle.font.getFontString t.textStyle.color] }

/-- The body of `Canvas.prototype.draw` without the leading `transform()`
call: iterate over the whole `paths` list. -/
def Ctx.drawAll (ctx : Ctx) (paths : List PathEntry) : Ctx :=
  paths.foldl Ctx.drawEntry ctx

/-- One layer's `Canvas` object: the element dimensions, the context, the
container's layout offsets seen through `getOffsetX`/`getOffsetY`, the
default text style, the committed `paths` list and the transform state. -/
structure Canvas where
  width : ℕ
  height : ℕ
  offsetLeft : ℝ
  offsetTop : ℝ
  scrollLeft : ℝ
  scrollTop : ℝ
  ctx : Ctx
  textStyle : TextStyle
  paths : List PathEntry
  transforms : Transforms


/-- The `Canvas` constructor for a freshly created element: `parseInt` the
requested dimensions and keep them only when `> 0`, otherwise the element
keeps the HTML defaults (300 × 150); install default styles, an empty
`paths` list and the identity transform state. -/
def Canvas.make (width height : Option ℤ) : Canvas :=
  { width := match width with
             | some w => if 0 < w then w.toNat else 300
             | none => 300
    height := match height with
              | some h => if 0 < h then h.toNat else 150
              | none => 150
    offsetLeft := 0
    offsetTop := 0
    scrollLeft := 0
    scrollTop := 0
    ctx := Ctx.initial
    textStyle := ⟨⟨"Arial", "normal", "16px"⟩, "rgba(0, 0, 0, 1.0)"⟩
    paths := []
    transforms := Transforms.initial }

/-- The bounding-box fold of the `Array.isArray` branch of
`getCenterPoint`: `minX`/`minY` start at `Number.MAX_VALUE` but
`maxX`/`maxY` start at `0`, exactly as in the source. -/
noncomputable def strokeBounds (pts : List Point) : ℝ × ℝ × ℝ × ℝ :=
  pts.foldl
    (fun acc p =>
      let (minX, minY, maxX, maxY) := acc
      (if p.x < minX then p.x else minX,
       if p.y < minY then p.y else minY,
       if p.x > maxX then p.x else maxX,
       if p.y > maxY then p.y else maxY))
    (jsMaxValue, jsMaxValue, 0, 0)

/-- The center assigned by one iteration of the `getCenterPoint` loop for
the given entry.  The components are `Option ℝ` because the `Text` branch
computes `NaN` when the font size string has no digits (`parseInt` gives
`NaN`); every other branch yields a number.  `measureText` abstracts the
host's `context.measureText(text).width` capability. -/
noncomputable def entryCenter (measureText : String → ℝ) (p : PathEntry) :
    Option ℝ × Option ℝ :=
  match p with
  | .strokePath pts =>
      let (minX, minY, maxX, maxY) := strokeBounds pts
      (some (jsTrunc ((maxX - minX) / 2 + minX)),
       some (jsTrunc ((maxY - minY) / 2 + minY)))
  | .line l =>
      let minX := min l.startPoint.x l.endPoint.x
      let minY := min l.startPoint.y l.endPoint.y
      let maxX := max l.startPoint.x l.endPoint.x
      let maxY := max l.startPoint.y l.endPoint.y
      (some (jsTrunc ((maxX - minX) / 2 + minX)),
       some (jsTrunc ((maxY - minY) / 2 + minY)))
  | .rect r =>
      (some (jsTrunc (r.width / 2) + r.left),
       some (jsTrunc (r.height / 2) + r.top))
  | .circle c =>
      (some c.centerX, some c.centerY)
  | .text t =>
      (some (t.point.x + jsTrunc (measureText t.text / 2)),
       match jsParseIntStr t.textStyle.font.size with
       | some fs => some (t.point.y + jsTrunc ((fs : ℝ) / 2))
       | none => none)

/-- `Canvas.prototype.getCenterPoint`: `centerX`/`centerY` start at `0` and
are overwritten by every iteration of the loop over `this.paths`; the final
values are wrapped in the defensive `Point` constructor. -/
noncomputable def Canvas.getCenterPoint (measureText : String → ℝ) (c : Canvas) : Point :=
  let z : Option ℝ × Option ℝ := (some 0, some 0)
  let r := c.paths.foldl (fun _ p => entryCenter measureText p) z
  Point.make r.1 r.2

/-- The transform-state update of `Canvas.prototype.transform` (the first
`switch` over the lowercased type): TRANSLATE and SCALE require two
parseable amounts and replace the pair wholesale, ROTATE requires one and
stores `degree * π / 180`; anything else leaves the state untouched. -/
noncomputable def applyTransformAmounts (t : String) (amounts : List (Option ℝ))
    (ts : Transforms) : Transforms :=
  if t = Transform.TRANSLATE then
    if amounts.length < 2 then ts
    else
      match amounts.getD 0 none, amounts.getD 1 none with
      | some dx, some dy => { ts with translate := ⟨dx, dy⟩ }
      | _, _ => ts
  else if t = Transform.SCALE then
    if amounts.length < 2 then ts
    else
      match amounts.getD 0 none, amounts.getD 1 none with
      | some sx, some sy => { ts with scale := ⟨sx, sy⟩ }
      | _, _ => ts
  else if t = Transform.ROTATE then
    if amounts.length < 1 then ts
    else
      match amounts.getD 0 none with
      | some degree => { ts with rotate := degree * Real.pi / 180 }
      | none => ts
  else ts

/-- The pixel-mapping matrix installed by the second `switch` of
`Canvas.prototype.transform`: starting from `setTransform(1,0,0,1,0,0)`,
TRANSLATE/SCALE multiply in pivot-conjugated rotation first and then the
scale+translate step, ROTATE multiplies them in the opposite order, and an
unknown type leaves the current matrix in force. -/
noncomputable def pixelMatrix (cur : Affine) (t : String) (ts : Transforms)
    (cp : Point) : Affine :=
  if t = Transform.TRANSLATE ∨ t = Transform.SCALE then
    ((((Affine.identity.mul (Affine.translationBy cp.x cp.y)).mul
        (rotateMatrix ts.rotate)).mul
        (Affine.translationBy (-cp.x) (-cp.y))).mul
        (scaleTranslateMatrix ts))
  else if t = Transform.ROTATE then
    ((((Affine.identity.mul (scaleTranslateMatrix ts)).mul
        (Affine.translationBy cp.x cp.y)).mul
        (rotateMatrix ts.rotate)).mul
        (Affine.translationBy (-cp.x) (-cp.y)))
  else cur

/-- `Canvas.prototype.transform(type, amounts)` with both arguments given
(every call site in the source passes an amounts array): compute the pivot
from `getCenterPoint`, update the transform state, then `clear`, `save`,
install the pixel matrix, replay the whole `paths` list through `draw`
and `restore`.  The surrounding `save`/`restore` pair returns the matrix
and every style to its prior value, so the net context change is the
replaced surface. -/
noncomputable def Canvas.transform (measureText : String → ℝ) (type : String)
    (amounts : List (Option ℝ)) (c : Canvas) : Canvas :=
  let cp := Canvas.getCenterPoint measureText c
  let t := jsToLower type
  let ts := applyTransformAmounts t amounts c.transforms
  let M := pixelMatrix c.ctx.matrix t ts cp
  let replayed := Ctx.drawAll { c.ctx with surface := [], matrix := M } c.paths
  { c with
      transforms := ts
      ctx := { c.ctx with surface := replayed.surface } }

/-- A touch record of a JS touch event. -/
structure JsTouch where
  pageX : ℝ
  pageY : ℝ


/-- The slice of a pointer event that `getOffsetX`/`getOffsetY` read.
`pageX`/`pageY` are `none` when the property is `undefined` (pure touch
events); `touches`/`changedTouches` are `none` when absent (mouse events). -/
structure JsEvent where
  pageX : Option ℝ
  pageY : Option ℝ
  touches : Option (List JsTouch)
  changedTouches : Option (List JsTouch)


/-- The horizontal page coordinate selected by the dispatch at the top of
`getOffsetX`: a truthy `event.pageX` (present and nonzero) wins, otherwise
the first entry of `touches` then of `changedTouches` is consulted —
indexing a missing `TouchList` throws (`none` outer result) — and when both
lists are present but empty the original (falsy) `pageX` is used, which
makes the subtraction evaluate to `NaN` when `pageX` was `undefined`
(`some none`). -/
noncomputable def eventPageX (e : JsEvent) : Option (Option ℝ) :=
  match e.pageX with
  | some v =>
      if v ≠ 0 then some (some v)
      else
        match e.touches with
        | none => none
        | some ts =>
            match ts.head? with
            | some t => some (some t.pageX)
            | none =>
                match e.changedTouches with
                | none => none
                | some cts =>
                    match cts.head? with
                    | some t => some (some t.pageX)
                    | none => some (some v)
  | none =>
      match e.touches with
      | none => none
      | some ts =>
          match ts.head? with
          | some t => some (some t.pageX)
          | none =>
              match e.changedTouches with
              | none => none
              | some cts =>
                  match cts.head? with
                  | some t => some (some t.pageX)
                  | none => some none

/-- The vertical analogue used by `getOffsetY`. -/
noncomputable def eventPageY (e : JsEvent) : Option (Option ℝ) :=
  match e.pageY with
  | some v =>
      if v ≠ 0 then some (some v)
      else
        match e.touches with
        | none => none
        | some ts =>
            match ts.head? with
            | some t => some (some t.pageY)
            | none =>
                match e.changedTouches with
                | none => none
                | some cts =>
                    match cts.head? with
                    | some t => some (some t.pageY)
                    | none => some (some v)
  | none =>
      match e.touches with
      | none => none
      | some ts =>
          match ts.head? with
          | some t => some (some t.pageY)
          | none =>
              match e.changedTouches with
              | none => none
              | some cts =>
                  match cts.head? with
                  | some t => some (some t.pageY)
                  | none => some none

/-- `Canvas.prototype.getOffsetX`.  A non-`Event` argument returns `0`.
Otherwise the page coordinate is shifted by the container offsets and then
clamped by the two sequential `if`s; the outer `none` is the `TypeError`
of indexing a missing touch list and the inner `none` is a `NaN` result
(possible only for an event with empty touch lists and no usable
`pageX`). -/
noncomputable def Canvas.getOffsetX (c : Canvas) (event : Option JsEvent) :
    Option (Option ℝ) :=
  match event with
  | none => some (some 0)
  | some e =>
      match eventPageX e with
      | none => none
      | some none => some none
      | some (some px) =>
          let offsetX := px - c.offsetLeft + c.scrollLeft
          let o1 := if offsetX < 0 then 0 else offsetX
          let o2 := if o1 > (c.width : ℝ) then (c.width : ℝ) else o1
          some (some o2)

/-- `Canvas.prototype.getOffsetY`, the vertical analogue. -/
noncomputable def Canvas.getOffsetY (c : Canvas) (event : Option JsEvent) :
    Option (Option ℝ) :=
  match event with
  | none => some (some 0)
  | some e =>
      match eventPageY e with
      | none => none
      | some none => some none
      | some (some py) =>
          let offsetY := py - c.offsetTop + c.scrollTop
          let o1 := if offsetY < 0 then 0 else offsetY
          let o2 := if o1 > (c.height : ℝ) then (c.height : ℝ) else o1
          some (some o2)

/-- The text-entry `<input>` element that `createTextbox` places into the
shared container (there is at most one for the whole container).  Its
CSS position strings are modelled by the real values written into them;
its `value` is typed by the user and is not mutated by the library. -/
structure Textbox where
  left : ℝ
  top : ℝ
  value : String


/-- One observable callback invocation, with the primitive arguments the
host receives (the canvas argument is the layer at the logged index). -/
inductive CbEvent where
  | drawstart (x y : ℝ)
  | drawmove (x y : ℝ)
  | drawend (x y : ℝ)
  | changemode (mode : String)
  | selectlayer (index : ℤ)
  | showlayer (index : ℤ)
  | hidelayer (index : ℤ)
  | addlayer (index : ℤ)
  | removelayer (index : ℤ)


/-- The state of one `ArtCanvas` instance: the mode selectors, the layer
stack and active index, the optional default `TextStyle` (the constructor
never initialises `this.textStyle`, so it starts absent), the shared
container's textbox, the closure variables `imagedata`/`isDown` of the
gesture handlers, the container dimensions, and the log of callback
invocations issued so far. -/
structure ACState where
  mode : String
  figure : String
  transform : String
  layers : List Canvas
  activeLayer : ℤ
  textStyle : Option TextStyle
  textbox : Option Textbox
  imagedata : Option (List RenderCmd)
  isDown : Bool
  containerW : ℤ
  containerH : ℤ
  events : List CbEvent


/-- The `ArtCanvas` constructor: container CSS width/height from the
parsed arguments when `> 0` (else 300), one initial layer, active index 0,
HAND mode, RECTANGLE figure, TRANSLATE transform kind, empty callback log. -/
def ACState.init (width height : Option ℤ) : ACState :=
  { mode := Mode.HAND
    figure := Figure.RECTANGLE
    transform := Transform.TRANSLATE
    layers := [Canvas.make width height]
    activeLayer := 0
    textStyle := none
    textbox := none
    imagedata := none
    isDown := false
    containerW := match width with
                  | some w => if 0 < w then w else 300
                  | none => 300
    containerH := match height with
                  | some h => if 0 < h then h else 300
                  | none => 300
    events := [] }

/-- `this.layers[this.activeLayer]`: `some` exactly when the index denotes
an existing layer; an out-of-range index yields `undefined` in JS, and any
method call on it throws. -/
def ACState.activeCanvas? (s : ACState) : Option Canvas :=
  if 0 ≤ s.activeLayer then s.layers[s.activeLayer.toNat]? else none

/-- Write back a mutated active layer. -/
def ACState.updActive (s : ACState) (c : Canvas) : ACState :=
  { s with layers := s.layers.set s.activeLayer.toNat c }

/-- `ArtCanvas.prototype.addLayer`: push a fresh `Canvas`, make it active
(`this.layers.length - 1` after the push), fire the `addlayer` callback. -/
def ACState.addLayer (s : ACState) (width height : Option ℤ) : ACState :=
  { s with
      layers := s.layers ++ [Canvas.make width height]
      activeLayer := (s.layers.length : ℤ)
      events := s.events ++ [CbEvent.addlayer (s.layers.length : ℤ)] }

/-- The range test of `ArtCanvas.prototype.validateLayerNumer`:
`index >= 0 && index < this.layers.length` on the parsed index. -/
def ACState.validIndex (s : ACState) (layerNumber : ℤ) : Prop :=
  0 ≤ layerNumber ∧ layerNumber < (s.layers.length : ℤ)

instance (s : ACState) (n : ℤ) : Decidable (s.validIndex n) := by
  unfold ACState.validIndex
  infer_instance

/-- `ArtCanvas.prototype.removeLayer`: when `validateLayerNumer` accepts
the index the layer is spliced out, `this.activeLayer--` runs
unconditionally, and the `removelayer` callback fires; otherwise nothing
happens. -/
def ACState.removeLayer (s : ACState) (layerNumber : ℤ) : ACState :=
  if s.validIndex layerNumber then
    { s with
        layers := s.layers.eraseIdx layerNumber.toNat
        activeLayer := s.activeLayer - 1
        events := s.events ++ [CbEvent.removelayer layerNumber] }
  else s

/-- `ArtCanvas.prototype.setFigure`: lowercase the argument and keep it
only when it is one of the three figure constants. -/
def ACState.setFigure (s : ACState) (figure : String) : ACState :=
  let f := jsToLower figure
  if f = Figure.RECTANGLE ∨ f = Figure.CIRCLE ∨ f = Figure.LINE then
    { s with figure := f }
  else s

/-- `Canvas.prototype.createTextbox` lifted to the application state (the
textbox lives in the shared container): a non-`Point` argument or an
already-present textbox makes it a no-op, otherwise an empty input is
positioned at the point. -/
def ACState.createTextbox (s : ACState) (point : Point) : ACState :=
  match s.textbox with
  | some _ => s
  | none => { s with textbox := some ⟨point.x, point.y, ""⟩ }

/-- `Canvas.prototype.drawText(textStyle)` on the canvas `c` (the active
layer, already dereferenced by the caller): a missing style or missing
textbox returns at once; otherwise the textbox is removed, its value is
drawn at `parseInt(style.left)` and `parseInt(style.top) + fontSize`
(`NaN` when the font-size string has no digits) with the style's font and
color — the previous `fillStyle` is restored by hand but `context.font`
keeps the new value — and a `Text` path is committed. -/
noncomputable def ACState.drawTextStep (s : ACState) (c : Canvas) : ACState :=
  match s.textStyle with
  | none => s
  | some ts =>
      match s.textbox with
      | none => s
      | some tb =>
          let fontSize : Option ℤ := jsParseIntStr ts.font.size
          let x : ℝ := jsTrunc tb.left
          let y : Option ℝ :=
            match fontSize with
            | some fs => some (jsTrunc tb.top + (fs : ℝ))
            | none => none
          let c' :=
            { c with
                ctx :=
                  { c.ctx with
                      font := ts.font.getFontString
                      surface := c.ctx.surface ++
                        [RenderCmd.textCmd c.ctx.matrix tb.value x y
                          ts.font.getFontString ts.color] }
                paths := c.paths ++
                  [PathEntry.text ⟨tb.value, Point.make (some x) y, ts⟩] }
          { s.updActive c' with textbox := none }

/-- `ArtCanvas.prototype.setMode`: lowercase the argument; HAND, FIGURE and
TRANSFORM install it, TEXT installs it and also allocates a brand-new layer
sized like the container, anything else changes nothing.  Afterwards the
active layer is dereferenced for `drawText` — a `TypeError` (`none`) when
the active index is out of range — and the `changemode` callback fires
unconditionally with the lowercased string. -/
noncomputable def ACState.setMode (s : ACState) (mode : String) : Option ACState :=
  let m := jsToLower mode
  let s1 :=
    if m = Mode.HAND ∨ m = Mode.FIGURE ∨ m = Mode.TRANSFORM then
      { s with mode := m }
    else if m = Mode.TEXT then
      ACState.addLayer { s with mode := m } (some s.containerW) (some s.containerH)
    else s
  match s1.activeCanvas? with
  | none => none
  | some c =>
      let s2 := s1.drawTextStep c
      some { s2 with events := s2.events ++ [CbEvent.changemode m] }

/-- `ArtCanvas.prototype.scale(scaleX, scaleY)`: delegate
`transform('scale', [scaleX, scaleY])` to the active layer (a `TypeError`
when the active index is out of range). -/
noncomputable def ACState.scale (measureText : String → ℝ)
    (s : ACState) (scaleX scaleY : Option ℝ) : Option ACState :=
  match s.activeCanvas? with
  | none => none
  | some c =>
      some (s.updActive (Canvas.transform measureText Transform.SCALE [scaleX, scaleY] c))

/-- `arr.pop()` on a JS array followed by a use of the result: `none` when
the array is empty (the popped `undefined` would throw at the next method
call); otherwise the remaining prefix and the removed last element. -/
def popLast {α : Type} (l : List α) : Option (List α × α) :=
  match l.getLast? with
  | none => none
  | some a => some (l.dropLast, a)

/-- Gesture phases, distinguishing the event-type regexes
`/mousedown|touchstart/` and `/mouseup|touchend/` used by `_figure`. -/
inductive Phase where
  | down
  | move
  | up
deriving DecidableEq

/-- The move/up part of the private `_figure` helper (the down phase only
snapshots the pixels; it is inlined into the down handler).  The last
`paths` entry (the anchor array pushed at pointer-down) is popped, its
last point read and both are pushed back; the snapshot is restored over
the surface; the preview for the current figure kind is drawn; and on the
up phase the anchor entry is replaced by the finalized shape. -/
noncomputable def figureStep (phase : Phase) (figure : String) (x y : ℝ)
    (imagedata : Option (List RenderCmd)) (c : Canvas) : Option Canvas :=
  match popLast c.paths with
  | none => none
  | some (rest, entry) =>
      match entry with
      | PathEntry.strokePath pts =>
          match popLast pts with
          | none => none
          | some (pts', point) =>
              -- points.push(point); activeCanvas.paths.push(points)
              let paths1 := rest ++ [PathEntry.strokePath (pts' ++ [point])]
              match imagedata with
              | none => none
              | some snap =>
                  let ctx1 := { c.ctx with surface := snap }
                  if figure = Figure.RECTANGLE then
                    let left := point.x
                    let top := point.y
                    let offset := Point.getOffsetPoint point (Point.make (some x) (some y))
                    let ctx2 := { ctx1 with surface := ctx1.surface ++
                      [RenderCmd.rectCmd ctx1.matrix left top offset.x offset.y
                        ctx1.strokeStyle ctx1.fillStyle ctx1.lineWidth] }
                    let paths2 :=
                      if phase = Phase.up then
                        -- note the argument swap: the Rectangle constructor
                        -- expects (top, left, w, h) but receives (left, top, w, h)
                        rest ++ [PathEntry.rect
                          (Rectangle.make (some left) (some top) (some offset.x) (some offset.y))]
                      else paths1
                    some { c with ctx := ctx2, paths := paths2 }
                  else if figure = Figure.CIRCLE then
                    let centerX := point.x
                    let centerY := point.y
                    let radius := Point.getDistance point (Point.make (some x) (some y))
                    let ctx2 := { ctx1 with surface := ctx1.surface ++
                      [RenderCmd.arc ctx1.matrix centerX centerY radius
                        ctx1.strokeStyle ctx1.fillStyle ctx1.lineWidth] }
                    let paths2 :=
                      if phase = Phase.up then
                        rest ++ [PathEntry.circle
                          (Circle.make (some centerX) (some centerY) (some radius))]
                      else paths1
                    some { c with ctx := ctx2, paths := paths2 }
                  else if figure = Figure.LINE then
                    let ctx2 := { ctx1 with surface := ctx1.surface ++
                      [RenderCmd.seg ctx1.matrix point (Point.make (some x) (some y))
                        ctx1.strokeStyle ctx1.lineWidth] }
                    let paths2 :=
                      if phase = Phase.up then
                        rest ++ [PathEntry.line ⟨point, Point.make (some x) (some y)⟩]
                      else paths1
                    some { c with ctx := ctx2, paths := paths2 }
                  else
                    -- unknown figure kind: pixels restored, nothing drawn,
                    -- anchor entry left in place even on the up phase
                    some { c with ctx := ctx1, paths := paths1 }
      | _ => none

/-- JS `Math.atan2(y, x)`: the signed angle of the vector `(x, y)`,
written with `Real.arctan` by quadrant.  (Its exact value never matters to
the claims; only the ROTATE gesture feeds it into `Canvas.transform`.) -/
noncomputable def jsAtan2 (y x : ℝ) : ℝ :=
  if 0 < x then Real.arctan (y / x)
  else if x < 0 ∧ 0 ≤ y then Real.arctan (y / x) + Real.pi
  else if x < 0 then Real.arctan (y / x) - Real.pi
  else if 0 < y then Real.pi / 2
  else if y < 0 then -(Real.pi / 2)
  else 0

/-- The private `_transform` helper: pop the anchor entry and its point,
turn the drag offset into the amounts for the current transform kind
(TRANSLATE passes the raw offset, SCALE passes `1 + offset/dimension`
componentwise when the offset component is nonzero, ROTATE passes the
`atan2` angle in degrees, an unknown kind passes an empty array), run
`Canvas.transform`, then push the anchor back. -/
noncomputable def transformStep (measureText : String → ℝ) (kind : String)
    (x y : ℝ) (c : Canvas) : Option Canvas :=
  match popLast c.paths with
  | none => none
  | some (rest, entry) =>
      match entry with
      | PathEntry.strokePath pts =>
          match popLast pts with
          | none => none
          | some (pts', point) =>
              let offset := Point.getOffsetPoint point (Point.make (some x) (some y))
              let amounts : List (Option ℝ) :=
                if kind = Transform.TRANSLATE then
                  [some offset.x, some offset.y]
                else if kind = Transform.SCALE then
                  let scaleX := if offset.x ≠ 0 then 1 + offset.x / (c.width : ℝ) else 1
                  let scaleY := if offset.y ≠ 0 then 1 + offset.y / (c.height : ℝ) else 1
                  [some scaleX, some scaleY]
                else if kind = Transform.ROTATE then
                  [some (jsAtan2 offset.y offset.x / Real.pi * 180)]
                else []
              let c1 := Canvas.transform measureText kind amounts { c with paths := rest }
              some { c1 with paths := c1.paths ++ [PathEntry.strokePath (pts' ++ [point])] }
      | _ => none

/-- The `mousedown`/`touchstart` listener, given the already-computed
clamped offsets `x`, `y` (see `getOffsetX`/`getOffsetY`).  TEXT mode opens
a textbox and returns early (no anchor push, no `isDown`, no `drawstart`);
FIGURE mode snapshots the pixels first; every non-TEXT mode then pushes
the one-point anchor array, raises `isDown` and fires `drawstart`. -/
noncomputable def handleDown (x y : ℝ) (s : ACState) : Option ACState :=
  match s.activeCanvas? with
  | none => none
  | some c =>
      if s.mode = Mode.TEXT then
        some (s.createTextbox (Point.make (some x) (some y)))
      else
        let s1 :=
          if s.mode = Mode.FIGURE then { s with imagedata := some c.ctx.surface }
          else s
        let c1 := { c with paths := c.paths ++
          [PathEntry.strokePath [Point.make (some x) (some y)]] }
        some { s1.updActive c1 with
                 isDown := true
                 events := s.events ++ [CbEvent.drawstart x y] }

/-- The `mousemove`/`touchmove` listener: ignored entirely unless a gesture
is down; HAND inks a segment from the stroke's last point and appends the
new point; FIGURE and TRANSFORM delegate to their helpers; TEXT does
nothing; every handled move fires `drawmove`. -/
noncomputable def handleMove (measureText : String → ℝ) (x y : ℝ)
    (s : ACState) : Option ACState :=
  if !s.isDown then some s
  else
    match s.activeCanvas? with
    | none => none
    | some c =>
        let logged := fun (s' : ACState) =>
          { s' with events := s'.events ++ [CbEvent.drawmove x y] }
        if s.mode = Mode.HAND then
          match popLast c.paths with
          | none => none
          | some (rest, entry) =>
              match entry with
              | PathEntry.strokePath pts =>
                  match popLast pts with
                  | none => none
                  | some (pts', point) =>
                      let ctx1 := { c.ctx with surface := c.ctx.surface ++
                        [RenderCmd.seg c.ctx.matrix point (Point.make (some x) (some y))
                          c.ctx.strokeStyle c.ctx.lineWidth] }
                      let c1 := { c with
                        ctx := ctx1
                        paths := rest ++ [PathEntry.strokePath
                          ((pts' ++ [point]) ++ [Point.make (some x) (some y)])] }
                      some (logged (s.updActive c1))
              | _ => none
        else if s.mode = Mode.TEXT then
          some (logged s)
        else if s.mode = Mode.FIGURE then
          match figureStep Phase.move s.figure x y s.imagedata c with
          | none => none
          | some c1 => some (logged (s.updActive c1))
        else if s.mode = Mode.TRANSFORM then
          match transformStep measureText s.transform x y c with
          | none => none
          | some c1 => some (logged (s.updActive c1))
        else
          some (logged s)

/-- The `mouseup`/`touchend` listener (attached on `global`, so it fires
even off the surface): ignored unless a gesture is down; FIGURE finalizes
the shape via `_figure` and clears the snapshot; TRANSFORM discards the
anchor entry; every handled up lowers `isDown` and fires `drawend`. -/
noncomputable def handleUp (x y : ℝ) (s : ACState) : Option ACState :=
  if !s.isDown then some s
  else
    match s.activeCanvas? with
    | none => none
    | some c =>
        let finish := fun (s' : ACState) =>
          { s' with
              isDown := false
              events := s'.events ++ [CbEvent.drawend x y] }
        if s.mode = Mode.HAND then
          some (finish s)
        else if s.mode = Mode.FIGURE then
          match figureStep Phase.up s.figure x y s.imagedata c with
          | none => none
          | some c1 => some (finish { s.updActive c1 with imagedata := none })
        else if s.mode = Mode.TEXT then
          some (finish s)
        else if s.mode = Mode.TRANSFORM then
          let c1 := { c with paths := c.paths.dropLast }
          some (finish (s.updActive c1))
        else
          some (finish s)

/-- A whole gesture: pointer-down at `(x0, y0)`, the listed pointer-moves,
pointer-up at `(xe, ye)`. -/
noncomputable def runGesture (measureText : String → ℝ) (x0 y0 : ℝ)
    (moves : List (ℝ × ℝ)) (xe ye : ℝ) (s : ACState) : Option ACState :=
  ((handleDown x0 y0 s).bind
    (fun s1 => moves.foldl
      (fun acc m => acc.bind (handleMove measureText m.1 m.2)) (some s1))).bind
    (handleUp xe ye)

/-- One call of the layer-stack interface exercised by the layer-index
invariant: `addLayer(width, height)` or `removeLayer(layerNumber)`. -/
inductive LayerOp where
  | add (width height : Option ℤ)
  | remove (layerNumber : ℤ)


/-- Apply one layer operation. -/
def applyLayerOp (s : ACState) : LayerOp → ACState
  | .add w h => s.addLayer w h
  | .remove n => s.removeLayer n

/-- Apply a sequence of layer operations in order. -/
def runLayerOps (s : ACState) (ops : List LayerOp) : ACState :=
  ops.foldl applyLayerOp s

/-- The pivot policy stated by the spec, for comparison against
`getCenterPoint`: the bounding-box center of the *first* shape in the
committed list (and the `(0, 0)` default for an empty list). -/
noncomputable def specCenterOfFirstShape (measureText : String → ℝ) (c : Canvas) : Point :=
  match c.paths with
  | [] => Point.make (some 0) (some 0)
  | p :: _ => Point.make (entryCenter measureText p).1 (entryCenter measureText p).2

/-- Mid-gesture invariant of a TRANSFORM drag on the state that started it
(`s0`, whose active layer was `c0`): the mode is still TRANSFORM, the
gesture is down, the active index is unchanged, and the only change to any
committed path list is the anchor entry sitting on top of the active
layer's list. -/
def TransformGestureInv (s0 : ACState) (c0 : Canvas) (anchor : PathEntry)
    (t : ACState) : Prop :=
  t.mode = Mode.TRANSFORM ∧ t.isDown = true ∧ t.activeLayer = s0.activeLayer ∧
  (∃ ct, t.activeCanvas? = some ct ∧ ct.paths = c0.paths ++ [anchor]) ∧
  t.layers.map Canvas.paths =
    (s0.layers.map Canvas.paths).set s0.activeLayer.toNat (c0.paths ++ [anchor])

/-- Mid-gesture invariant of a FIGURE drag: like `TransformGestureInv` but
in FIGURE mode, with the figure kind frozen and a pixel snapshot held in
`imagedata`. -/
def FigureGestureInv (s0 : ACState) (c0 : Canvas) (anchor : PathEntry)
    (t : ACState) : Prop :=
  t.mode = Mode.FIGURE ∧ t.figure = s0.figure ∧ t.isDown = true ∧
  t.activeLayer = s0.activeLayer ∧ (∃ d, t.imagedata = some d) ∧
  (∃ ct, t.activeCanvas? = some ct ∧ ct.paths = c0.paths ++ [anchor]) ∧
  t.layers.map Canvas.paths =
    (s0.layers.map Canvas.paths).set s0.activeLayer.toNat (c0.paths ++ [anchor])

/-- A 300 × 300 layer holding one committed `Rectangle(10, 10, 50, 30)`,
used to exhibit the asymmetry of the transform composition order. -/
noncomputable def c4Canvas : Canvas :=
  { Canvas.make (some 300) (some 300) with
      paths := [PathEntry.rect ⟨10, 10, 50, 30⟩] }

/-- A layer holding a `Rectangle` followed by a `Circle`, used to compare
`getCenterPoint` against the spec's first-shape pivot policy. -/
noncomputable def c2Canvas : Canvas :=
  { Canvas.make (some 300) (some 300) with
      paths := [PathEntry.rect ⟨0, 0, 10, 10⟩, PathEntry.circle ⟨100, 100, 5⟩] }

/-! ## Shared auxiliary lemmas -/

lemma List.set_self_of_getElem? {α : Type} (l : List α) (n : ℕ) (a : α)
    (h : l[n]? = some a) : l.set n a = l := by
  apply List.ext_getElem?
  intro m
  by_cases hm : m = n
  · subst hm
    rw [List.getElem?_set_eq_of_lt a (List.getElem?_eq_some.mp h).1, h]
  · rw [List.getElem?_set_ne (by omega)]

lemma popLast_concat {α : Type} (l : List α) (a : α) :
    popLast (l ++ [a]) = some (l, a) := by
  simp [popLast, List.getLast?_concat, List.dropLast_concat]

lemma updActive_activeCanvas (s : ACState) (c0 c : Canvas)
    (h : s.activeCanvas? = some c0) : (s.updActive c).activeCanvas? = some c := by
  unfold ACState.activeCanvas? at h ⊢
  by_cases h0 : 0 ≤ s.activeLayer
  · rw [if_pos h0] at h
    simp only [ACState.updActive, if_pos h0]
    exact List.getElem?_set_eq_of_lt c (List.getElem?_eq_some.mp h).1
  · rw [if_neg h0] at h
    exact absurd h (by simp)

lemma updActive_layerPaths (s : ACState) (c : Canvas) :
    (s.updActive c).layers.map Canvas.paths =
      (s.layers.map Canvas.paths).set s.activeLayer.toNat c.paths := by
  simp [ACState.updActive, List.map_set]

/-! ## C8: defensive geometry constructors and the point accessors -/

/-- C8: a `Point` built from input that does not parse keeps the default
`0` in that coordinate (never `NaN`), and a parsed number is stored
verbatim; a `Rectangle` width/height and a `Circle` radius are `0` unless
the parsed value is `≥ 0`, in which case they are stored verbatim; and
`getOffsetPoint` and `getDistance` compute the componentwise difference
and the euclidean distance. -/
theorem c8_defensive_constructors :
    (∀ py : Option ℝ, (Point.make none py).x = 0) ∧
    (∀ px : Option ℝ, (Point.make px none).y = 0) ∧
    (∀ (v : ℝ) (py : Option ℝ), (Point.make (some v) py).x = v) ∧
    (∀ (px : Option ℝ) (v : ℝ), (Point.make px (some v)).y = v) ∧
    (∀ t l h : Option ℝ,
      (Rectangle.make t l none h).width = 0 ∧ (Rectangle.make t l h none).height = 0) ∧
    (∀ (t l h : Option ℝ) (v : ℝ),
      (Rectangle.make t l (some v) h).width = (if 0 ≤ v then v else 0) ∧
      (Rectangle.make t l h (some v)).height = (if 0 ≤ v then v else 0)) ∧
    (∀ cx cy : Option ℝ, (Circle.make cx cy none).radius = 0) ∧
    (∀ (cx cy : Option ℝ) (v : ℝ),
      (Circle.make cx cy (some v)).radius = (if 0 ≤ v then v else 0)) ∧
    (∀ a b : Point, Point.getOffsetPoint a b = ⟨b.x - a.x, b.y - a.y⟩) ∧
    (∀ a b : Point,
      Point.getDistance a b = Real.sqrt ((b.x - a.x) ^ 2 + (b.y - a.y) ^ 2)) := by
  refine ⟨fun _ => rfl, fun _ => rfl, fun _ _ => rfl, fun _ _ => rfl,
    fun _ _ _ => ⟨rfl, rfl⟩, fun _ _ _ _ => ⟨rfl, rfl⟩, fun _ _ => rfl,
    fun _ _ _ => rfl, fun _ _ => rfl, fun a b => ?_⟩
  simp [Point.getDistance, Point.getOffsetPoint, Point.make]

/-! ## C9: addLayer appends and activates the new layer -/

/-- C9: `addLayer` appends exactly one fresh layer at the end of the layer
list and unconditionally makes it the active one (`layerCount - 1`),
whatever was active before. -/
theorem c9_addLayer_appends_and_activates :
    ∀ (s : ACState) (w h : Option ℤ),
      (s.addLayer w h).layers.length = s.layers.length + 1 ∧
      (s.addLayer w h).layers.take s.layers.length = s.layers ∧
      (s.addLayer w h).layers.getLast? = some (Canvas.make w h) ∧
      (s.addLayer w h).activeLayer = ((s.addLayer w h).layers.length : ℤ) - 1 := by
  intro s w h
  refine ⟨by simp [ACState.addLayer], ?_, ?_, ?_⟩
  · simp [ACState.addLayer, List.take_left s.layers [Canvas.make w h]]
  · simp [ACState.addLayer, List.getLast?_concat]
  · simp [ACState.addLayer]

/-! ## C1: the layer-index invariant -/

lemma applyLayerOp_active (s : ACState) (op : LayerOp)
    (h : s.activeLayer = (s.layers.length : ℤ) - 1) :
    (applyLayerOp s op).activeLayer = ((applyLayerOp s op).layers.length : ℤ) - 1 := by
  cases op with
  | add w hh => simp [applyLayerOp, ACState.addLayer]
  | remove n =>
      simp only [applyLayerOp, ACState.removeLayer]
      by_cases hv : s.validIndex n
      · rw [if_pos hv]
        obtain ⟨h0, hlt⟩ := hv
        have hn : n.toNat < s.layers.length := by omega
        simp only
        rw [List.length_eraseIdx]
        simp only [if_pos hn]
        omega
      · rw [if_neg hv]
        exact h

lemma runLayerOps_active (s : ACState) (ops : List LayerOp)
    (h : s.activeLayer = (s.layers.length : ℤ) - 1) :
    (runLayerOps s ops).activeLayer = ((runLayerOps s ops).layers.length : ℤ) - 1 := by
  induction ops generalizing s with
  | nil => exact h
  | cons op rest ih =>
      exact ih (applyLayerOp s op) (applyLayerOp_active s op h)

/-- C1: along any sequence of `addLayer`/`removeLayer` calls from the
initial one-layer state, the active-layer index stays inside
`[0, layerCount)` whenever at least one layer remains; and `removeLayer`
with an out-of-range index changes nothing at all. -/
theorem c1_layer_index_invariant :
    (∀ (w h : Option ℤ) (ops : List LayerOp),
      0 < (runLayerOps (ACState.init w h) ops).layers.length →
      0 ≤ (runLayerOps (ACState.init w h) ops).activeLayer ∧
      (runLayerOps (ACState.init w h) ops).activeLayer <
        ((runLayerOps (ACState.init w h) ops).layers.length : ℤ)) ∧
    (∀ (s : ACState) (n : ℤ), ¬ s.validIndex n → s.removeLayer n = s) := by
  constructor
  · intro w h ops hpos
    have := runLayerOps_active (ACState.init w h) ops (by simp [ACState.init])
    omega
  · intro s n hv
    simp [ACState.removeLayer, if_neg hv]

/-- Witness for C1 at a concrete run: one `addLayer` after construction
leaves the index in range, and `removeLayer(5)` on the fresh one-layer
state is an exact no-op. -/
theorem c1_layer_index_invariant_witness :
    (0 ≤ (runLayerOps (ACState.init (some 300) (some 300))
            [LayerOp.add none none]).activeLayer ∧
     (runLayerOps (ACState.init (some 300) (some 300))
            [LayerOp.add none none]).activeLayer <
       ((runLayerOps (ACState.init (some 300) (some 300))
            [LayerOp.add none none]).layers.length : ℤ)) ∧
    (ACState.init (some 300) (some 300)).removeLayer 5 =
      ACState.init (some 300) (some 300) :=
  ⟨c1_layer_index_invariant.1 (some 300) (some 300) [LayerOp.add none none]
      (by decide),
   c1_layer_index_invariant.2 (ACState.init (some 300) (some 300)) 5
      (by decide)⟩

/-! ## C10: pointer offsets are clamped to the canvas bounds -/

/-- C10: whenever `getOffsetX`/`getOffsetY` deliver a coordinate, it lies
in `[0, canvas.width]` resp. `[0, canvas.height]`, so every point handed to
the gesture handlers is inside the layer's surface. -/
theorem c10_offsets_clamped :
    ∀ (c : Canvas) (e : Option JsEvent) (vx vy : ℝ),
      (Canvas.getOffsetX c e = some (some vx) → 0 ≤ vx ∧ vx ≤ (c.width : ℝ)) ∧
      (Canvas.getOffsetY c e = some (some vy) → 0 ≤ vy ∧ vy ≤ (c.height : ℝ)) := by
  intro c e vx vy
  constructor
  · intro h
    cases e with
    | none =>
        simp only [Canvas.getOffsetX, Option.some.injEq] at h
        subst h
        exact ⟨le_refl 0, Nat.cast_nonneg _⟩
    | some ev =>
        cases hpx : eventPageX ev with
        | none => simp [Canvas.getOffsetX, hpx] at h
        | some px =>
            cases px with
            | none => simp [Canvas.getOffsetX, hpx] at h
            | some v =>
                simp only [Canvas.getOffsetX, hpx, Option.some.injEq] at h
                subst h
                have hw : (0 : ℝ) ≤ (c.width : ℝ) := Nat.cast_nonneg _
                constructor <;> split_ifs <;> linarith
  · intro h
    cases e with
    | none =>
        simp only [Canvas.getOffsetY, Option.some.injEq] at h
        subst h
        exact ⟨le_refl 0, Nat.cast_nonneg _⟩
    | some ev =>
        cases hpy : eventPageY ev with
        | none => simp [Canvas.getOffsetY, hpy] at h
        | some py =>
            cases py with
            | none => simp [Canvas.getOffsetY, hpy] at h
            | some v =>
                simp only [Canvas.getOffsetY, hpy, Option.some.injEq] at h
                subst h
                have hh : (0 : ℝ) ≤ (c.height : ℝ) := Nat.cast_nonneg _
                constructor <;> split_ifs <;> linarith

/-- Witness for C10: a mouse event at page coordinates `(150, 40)` on a
fresh 300 × 300 layer delivers exactly `(150, 40)`, inside the bounds. -/
theorem c10_offsets_clamped_witness :
    (0 ≤ (150 : ℝ) ∧ (150 : ℝ) ≤ ((Canvas.make (some 300) (some 300)).width : ℝ)) ∧
    (0 ≤ (40 : ℝ) ∧ (40 : ℝ) ≤ ((Canvas.make (some 300) (some 300)).height : ℝ)) :=
  ⟨(c10_offsets_clamped (Canvas.make (some 300) (some 300))
      (some ⟨some 150, some 40, none, none⟩) 150 40).1
      (by norm_num [Canvas.getOffsetX, eventPageX, Canvas.make]),
   (c10_offsets_clamped (Canvas.make (some 300) (some 300))
      (some ⟨some 150, some 40, none, none⟩) 150 40).2
      (by norm_num [Canvas.getOffsetY, eventPageY, Canvas.make])⟩

/-! ## C5: the transform-state update of Canvas.transform -/

lemma applyTransformAmounts_translate_noop (amounts : List (Option ℝ))
    (ts : Transforms)
    (h : amounts.length < 2 ∨ amounts.getD 0 none = none ∨ amounts.getD 1 none = none) :
    applyTransformAmounts Transform.TRANSLATE amounts ts = ts := by
  unfold applyTransformAmounts
  rw [if_pos rfl]
  by_cases hl : amounts.length < 2
  · rw [if_pos hl]
  · rw [if_neg hl]
    rcases h with h | h | h
    · exact absurd h hl
    · rcases hg : amounts.getD 1 none with _ | b <;> rw [h]
    · rcases hg : amounts.getD 0 none with _ | a <;> rw [h]

lemma applyTransformAmounts_scale_noop (amounts : List (Option ℝ))
    (ts : Transforms)
    (h : amounts.length < 2 ∨ amounts.getD 0 none = none ∨ amounts.getD 1 none = none) :
    applyTransformAmounts Transform.SCALE amounts ts = ts := by
  unfold applyTransformAmounts
  rw [if_neg (by decide), if_pos rfl]
  by_cases hl : amounts.length < 2
  · rw [if_pos hl]
  · rw [if_neg hl]
    rcases h with h | h | h
    · exact absurd h hl
    · rcases hg : amounts.getD 1 none with _ | b <;> rw [h]
    · rcases hg : amounts.getD 0 none with _ | a <;> rw [h]

/-- C5: `Canvas.transform` with kind TRANSLATE or SCALE and at least two
parseable amounts replaces the translate resp. scale pair with exactly
those values; with kind ROTATE and one parseable amount it stores
`degrees * π / 180`; and a too-short list, an unparseable amount or an
unknown kind leaves the whole transform state unchanged. -/
theorem c5_transform_state_update :
    ∀ (measureText : String → ℝ) (c : Canvas) (type : String)
      (amounts : List (Option ℝ)),
      (jsToLower type = Transform.TRANSLATE →
        (∀ dx dy : ℝ, 2 ≤ amounts.length →
          amounts.getD 0 none = some dx → amounts.getD 1 none = some dy →
          (Canvas.transform measureText type amounts c).transforms =
            { c.transforms with translate := ⟨dx, dy⟩ }) ∧
        ((amounts.length < 2 ∨ amounts.getD 0 none = none ∨
            amounts.getD 1 none = none) →
          (Canvas.transform measureText type amounts c).transforms = c.transforms)) ∧
      (jsToLower type = Transform.SCALE →
        (∀ sx sy : ℝ, 2 ≤ amounts.length →
          amounts.getD 0 none = some sx → amounts.getD 1 none = some sy →
          (Canvas.transform measureText type amounts c).transforms =
            { c.transforms with scale := ⟨sx, sy⟩ }) ∧
        ((amounts.length < 2 ∨ amounts.getD 0 none = none ∨
            amounts.getD 1 none = none) →
          (Canvas.transform measureText type amounts c).transforms = c.transforms)) ∧
      (jsToLower type = Transform.ROTATE →
        (∀ degree : ℝ, 1 ≤ amounts.length → amounts.getD 0 none = some degree →
          (Canvas.transform measureText type amounts c).transforms =
            { c.transforms with rotate := degree * Real.pi / 180 }) ∧
        ((amounts.length < 1 ∨ amounts.getD 0 none = none) →
          (Canvas.transform measureText type amounts c).transforms = c.transforms)) ∧
      (jsToLower type ≠ Transform.TRANSLATE → jsToLower type ≠ Transform.SCALE →
       jsToLower type ≠ Transform.ROTATE →
        (Canvas.transform measureText type amounts c).transforms = c.transforms) := by
  intro measureText c type amounts
  have key : (Canvas.transform measureText type amounts c).transforms =
      applyTransformAmounts (jsToLower type) amounts c.transforms := rfl
  refine ⟨fun ht => ⟨fun dx dy hlen h0 h1 => ?_, fun hbad => ?_⟩,
          fun ht => ⟨fun sx sy hlen h0 h1 => ?_, fun hbad => ?_⟩,
          fun ht => ⟨fun degree hlen h0 => ?_, fun hbad => ?_⟩,
          fun h1 h2 h3 => ?_⟩
  · rw [key, ht]
    unfold applyTransformAmounts
    rw [if_pos rfl, if_neg (by omega), h0, h1]
  · rw [key, ht]
    exact applyTransformAmounts_translate_noop amounts c.transforms hbad
  · rw [key, ht]
    unfold applyTransformAmounts
    rw [if_neg (by decide), if_pos rfl, if_neg (by omega), h0, h1]
  · rw [key, ht]
    exact applyTransformAmounts_scale_noop amounts c.transforms hbad
  · rw [key, ht]
    unfold applyTransformAmounts
    rw [if_neg (by decide), if_neg (by decide), if_pos rfl, if_neg (by omega), h0]
  · rw [key, ht]
    unfold applyTransformAmounts
    rw [if_neg (by decide), if_neg (by decide), if_pos rfl]
    rcases hbad with h | h
    · rw [if_pos h]
    · by_cases hl : amounts.length < 1
      · rw [if_pos hl]
      · rw [if_neg hl, h]
  · rw [key]
    unfold applyTransformAmounts
    rw [if_neg h1, if_neg h2, if_neg h3]

/-- Witness for C5: a ROTATE by 90 degrees on a fresh layer stores
`90 * π / 180`, and a TRANSLATE given only one amount changes nothing. -/
theorem c5_transform_state_update_witness :
    (Canvas.transform (fun _ => 0) "rotate" [some 90]
        (Canvas.make none none)).transforms =
      { (Canvas.make none none).transforms with rotate := 90 * Real.pi / 180 } ∧
    (Canvas.transform (fun _ => 0) "translate" [some 1]
        (Canvas.make none none)).transforms =
      (Canvas.make none none).transforms :=
  ⟨((c5_transform_state_update (fun _ => 0) (Canvas.make none none)
        "rotate" [some 90]).2.2.1 (by decide)).1 90 (by decide) rfl,
   ((c5_transform_state_update (fun _ => 0) (Canvas.make none none)
        "translate" [some 1]).1 (by decide)).2 (Or.inl (by decide))⟩

/-! ## C2: which shape the transform pivot comes from -/

lemma foldl_const_last {α β : Type} (f : α → β) (l : List α) (z : β) :
    l.foldl (fun _ p => f p) z =
      (match l.getLast? with
       | some p => f p
       | none => z) := by
  induction l generalizing z with
  | nil => rfl
  | cons a rest ih =>
      rw [List.foldl_cons, ih]
      cases rest with
      | nil => rfl
      | cons b t =>
          rw [List.getLast?_cons_cons]
          cases hr : (b :: t).getLast? with
          | none => exact absurd hr (by simp)
          | some p => rfl

/-- Counterexample to C2: on a layer holding a `Rectangle` followed by a
`Circle`, `getCenterPoint` returns the circle's center `(100, 100)`, not
the bounding-box center `(5, 5)` of the first shape: the loop overwrites
the running center on every entry, so the pivot comes from the last shape,
not the first. -/
theorem c2_counterexample :
    Canvas.getCenterPoint (fun _ => 0) c2Canvas ≠
      specCenterOfFirstShape (fun _ => 0) c2Canvas := by
  have h1 : Canvas.getCenterPoint (fun _ => 0) c2Canvas = ⟨100, 100⟩ := by
    simp [Canvas.getCenterPoint, c2Canvas, Canvas.make, entryCenter, Point.make]
  have h2 : specCenterOfFirstShape (fun _ => 0) c2Canvas = ⟨5, 5⟩ := by
    have hfl : jsTrunc ((10 : ℝ) / 2) = 5 := by
      norm_num [jsTrunc]
    simp [specCenterOfFirstShape, c2Canvas, Canvas.make, entryCenter, Point.make, hfl]
  rw [h1, h2]
  intro hc
  exact absurd (congrArg Point.x hc) (by norm_num)

/-- C2 amended: the transform pivot returned by `getCenterPoint` is the
bounding-box center of the *last* entry of the committed list (each loop
iteration overwrites the running center), and `(0, 0)` for an empty list. -/
theorem c2_pivot_from_last_shape :
    ∀ (measureText : String → ℝ) (c : Canvas),
      Canvas.getCenterPoint measureText c =
        (match c.paths.getLast? with
         | some p => Point.make (entryCenter measureText p).1 (entryCenter measureText p).2
         | none => Point.make (some 0) (some 0)) := by
  intro measureText c
  simp only [Canvas.getCenterPoint]
  rw [foldl_const_last (entryCenter measureText) c.paths (some 0, some 0)]
  cases c.paths.getLast? with
  | none => rfl
  | some p => rfl

/-! ## C3: invalid mode and figure strings -/

lemma validIndex_activeCanvas (s : ACState) (hv : s.validIndex s.activeLayer) :
    ∃ c, s.activeCanvas? = some c := by
  obtain ⟨h0, hlt⟩ := hv
  have hn : s.activeLayer.toNat < s.layers.length := by omega
  refine ⟨s.layers[s.activeLayer.toNat], ?_⟩
  unfold ACState.activeCanvas?
  rw [if_pos h0]
  exact List.getElem?_eq_getElem hn

lemma drawTextStep_preserves (s : ACState) (c : Canvas) :
    (s.drawTextStep c).mode = s.mode ∧ (s.drawTextStep c).figure = s.figure ∧
    (s.drawTextStep c).events = s.events := by
  unfold ACState.drawTextStep
  rcases hts : s.textStyle with _ | ts
  · exact ⟨rfl, rfl, rfl⟩
  · rcases htb : s.textbox with _ | tb
    · exact ⟨rfl, rfl, rfl⟩
    · exact ⟨rfl, rfl, rfl⟩

/-- Counterexample to C3: `setMode("bogus")` on a fresh instance leaves
the mode at HAND but *does* fire the `changemode` callback (with the
lowercased invalid string): the source calls
`this.callbacks.changemode(m)` unconditionally after the mode switch. -/
theorem c3_counterexample :
    (ACState.setMode (ACState.init (some 300) (some 300)) "bogus").map
        (fun s => (s.mode, s.events)) =
      some (Mode.HAND, [CbEvent.changemode "bogus"]) := by
  rfl

/-- C3 amended: `setMode` with a string outside the four mode constants
leaves the mode (and figure) unchanged but still invokes the `changemode`
callback with the lowercased string (when the active layer exists, which
the unconditional `drawText` dereference requires); `setFigure` with a
string outside the three figure constants is a complete no-op. -/
theorem c3_invalid_mode_and_figure :
    (∀ (s : ACState) (mode : String),
      jsToLower mode ≠ Mode.HAND → jsToLower mode ≠ Mode.FIGURE →
      jsToLower mode ≠ Mode.TEXT → jsToLower mode ≠ Mode.TRANSFORM →
      s.validIndex s.activeLayer →
      ∃ s', s.setMode mode = some s' ∧ s'.mode = s.mode ∧ s'.figure = s.figure ∧
        s'.events = s.events ++ [CbEvent.changemode (jsToLower mode)]) ∧
    (∀ (s : ACState) (figure : String),
      jsToLower figure ≠ Figure.RECTANGLE → jsToLower figure ≠ Figure.CIRCLE →
      jsToLower figure ≠ Figure.LINE →
      s.setFigure figure = s) := by
  constructor
  · intro s mode h1 h2 h3 h4 hv
    obtain ⟨c, hc⟩ := validIndex_activeCanvas s hv
    have hcond : ¬(jsToLower mode = Mode.HAND ∨ jsToLower mode = Mode.FIGURE ∨
        jsToLower mode = Mode.TRANSFORM) := by
      simp [h1, h2, h4]
    obtain ⟨hm, hf, he⟩ := drawTextStep_preserves s c
    refine ⟨{ s.drawTextStep c with
                events := (s.drawTextStep c).events ++
                  [CbEvent.changemode (jsToLower mode)] }, ?_, hm, hf, by rw [he]⟩
    simp only [ACState.setMode, if_neg hcond, if_neg h3]
    rw [hc]
  · intro s figure h1 h2 h3
    simp [ACState.setFigure, h1, h2, h3]

/-- Witness for the amended C3 on a fresh instance: `setMode("bogus")`
keeps HAND mode yet logs `changemode "bogus"`, and `setFigure("hexagon")`
changes nothing. -/
theorem c3_invalid_mode_and_figure_witness :
    (∃ s', (ACState.init (some 300) (some 300)).setMode "bogus" = some s' ∧
       s'.mode = (ACState.init (some 300) (some 300)).mode ∧
       s'.figure = (ACState.init (some 300) (some 300)).figure ∧
       s'.events = (ACState.init (some 300) (some 300)).events ++
         [CbEvent.changemode (jsToLower "bogus")]) ∧
    (ACState.init (some 300) (some 300)).setFigure "hexagon" =
      ACState.init (some 300) (some 300) :=
  ⟨c3_invalid_mode_and_figure.1 (ACState.init (some 300) (some 300)) "bogus"
      (by decide) (by decide) (by decide) (by decide) (by decide),
   c3_invalid_mode_and_figure.2 (ACState.init (some 300) (some 300)) "hexagon"
      (by decide) (by decide) (by decide)⟩

/-! ## C4: the asymmetric composition order of the pixel mapping -/

lemma pixelMatrix_translate (cur : Affine) (ts : Transforms) (cp : Point) :
    pixelMatrix cur Transform.TRANSLATE ts cp =
      (rotateAboutPivot cp ts.rotate).mul (scaleTranslateMatrix ts) := by
  unfold pixelMatrix
  rw [if_pos (Or.inl rfl)]
  simp only [Affine.mul, Affine.identity, Affine.translationBy, rotateMatrix,
    scaleTranslateMatrix, rotateAboutPivot, Affine.mk.injEq]
  refine ⟨by ring, by ring, by ring, by ring, by ring, by ring⟩

lemma pixelMatrix_scale (cur : Affine) (ts : Transforms) (cp : Point) :
    pixelMatrix cur Transform.SCALE ts cp =
      (rotateAboutPivot cp ts.rotate).mul (scaleTranslateMatrix ts) := by
  unfold pixelMatrix
  rw [if_pos (Or.inr rfl)]
  simp only [Affine.mul, Affine.identity, Affine.translationBy, rotateMatrix,
    scaleTranslateMatrix, rotateAboutPivot, Affine.mk.injEq]
  refine ⟨by ring, by ring, by ring, by ring, by ring, by ring⟩

lemma pixelMatrix_rotate (cur : Affine) (ts : Transforms) (cp : Point) :
    pixelMatrix cur Transform.ROTATE ts cp =
      (scaleTranslateMatrix ts).mul (rotateAboutPivot cp ts.rotate) := by
  unfold pixelMatrix
  rw [if_neg (by decide), if_pos rfl]
  simp only [Affine.mul, Affine.identity, Affine.translationBy, rotateMatrix,
    scaleTranslateMatrix, rotateAboutPivot, Affine.mk.injEq]
  refine ⟨by ring, by ring, by ring, by ring, by ring, by ring⟩

/-- C4: the pixel-mapping composition is asymmetric — TRANSLATE and SCALE
install rotation-about-pivot (with the stored rotation) composed before
the translate+scale step, while ROTATE installs stored translate+scale
composed before rotation-about-pivot (with the new rotation); and on a
layer with one committed `Rectangle(10, 10, 50, 30)` this makes
SCALE (2,2) followed by ROTATE 90 install a different pixel mapping than
ROTATE 90 followed by SCALE (2,2), even though both leave the same
`TransformState`. -/
theorem c4_composition_order :
    (∀ (cur : Affine) (ts : Transforms) (cp : Point),
      pixelMatrix cur Transform.TRANSLATE ts cp =
        (rotateAboutPivot cp ts.rotate).mul (scaleTranslateMatrix ts) ∧
      pixelMatrix cur Transform.SCALE ts cp =
        (rotateAboutPivot cp ts.rotate).mul (scaleTranslateMatrix ts) ∧
      pixelMatrix cur Transform.ROTATE ts cp =
        (scaleTranslateMatrix ts).mul (rotateAboutPivot cp ts.rotate)) ∧
    (Canvas.transform (fun _ => 0) Transform.ROTATE [some 90]
        (Canvas.transform (fun _ => 0) Transform.SCALE [some 2, some 2]
          c4Canvas)).ctx.surface ≠
      (Canvas.transform (fun _ => 0) Transform.SCALE [some 2, some 2]
        (Canvas.transform (fun _ => 0) Transform.ROTATE [some 90]
          c4Canvas)).ctx.surface := by
  constructor
  · intro cur ts cp
    exact ⟨pixelMatrix_translate cur ts cp, pixelMatrix_scale cur ts cp,
      pixelMatrix_rotate cur ts cp⟩
  · intro heq
    have hcp : ∀ c' : Canvas, c'.paths = [PathEntry.rect ⟨10, 10, 50, 30⟩] →
        Canvas.getCenterPoint (fun _ => 0) c' = ⟨35, 25⟩ := by
      intro c' h
      have h25 : jsTrunc ((50 : ℝ) / 2) = 25 := by norm_num [jsTrunc]
      have h15 : jsTrunc ((30 : ℝ) / 2) = 15 := by norm_num [jsTrunc]
      simp [Canvas.getCenterPoint, h, entryCenter, Point.make, h25, h15]
      norm_num
    have hcp1 := hcp (Canvas.transform (fun _ => 0) Transform.SCALE
      [some 2, some 2] c4Canvas) rfl
    have hcp2 := hcp (Canvas.transform (fun _ => 0) Transform.ROTATE
      [some 90] c4Canvas) rfl
    have e1 : (Canvas.transform (fun _ => 0) Transform.ROTATE [some 90]
        (Canvas.transform (fun _ => 0) Transform.SCALE [some 2, some 2]
          c4Canvas)).ctx.surface =
        [RenderCmd.rectCmd
          (pixelMatrix Affine.identity Transform.ROTATE
            ⟨⟨0, 0⟩, ⟨2, 2⟩, ⟨0, 0⟩, 90 * Real.pi / 180⟩
            (Canvas.getCenterPoint (fun _ => 0)
              (Canvas.transform (fun _ => 0) Transform.SCALE [some 2, some 2]
                c4Canvas)))
          10 10 50 30 "rgba(0, 0, 0, 1.0)" "rgba(0, 0, 0, 0.0)" 1] := rfl
    have e2 : (Canvas.transform (fun _ => 0) Transform.SCALE [some 2, some 2]
        (Canvas.transform (fun _ => 0) Transform.ROTATE [some 90]
          c4Canvas)).ctx.surface =
        [RenderCmd.rectCmd
          (pixelMatrix Affine.identity Transform.SCALE
            ⟨⟨0, 0⟩, ⟨2, 2⟩, ⟨0, 0⟩, 90 * Real.pi / 180⟩
            (Canvas.getCenterPoint (fun _ => 0)
              (Canvas.transform (fun _ => 0) Transform.ROTATE [some 90]
                c4Canvas)))
          10 10 50 30 "rgba(0, 0, 0, 1.0)" "rgba(0, 0, 0, 0.0)" 1] := rfl
    rw [e1, e2, hcp1, hcp2, pixelMatrix_rotate, pixelMatrix_scale] at heq
    have hM1 : (scaleTranslateMatrix
          ⟨⟨0, 0⟩, ⟨2, 2⟩, ⟨0, 0⟩, 90 * Real.pi / 180⟩).mul
        (rotateAboutPivot ⟨35, 25⟩ (90 * Real.pi / 180)) =
        (rotateAboutPivot ⟨35, 25⟩ (90 * Real.pi / 180)).mul
          (scaleTranslateMatrix
            ⟨⟨0, 0⟩, ⟨2, 2⟩, ⟨0, 0⟩, 90 * Real.pi / 180⟩) := by
      have h := heq
      simp only [List.cons.injEq, RenderCmd.rectCmd.injEq, and_true] at h
      exact h
    have he := congrArg Affine.e hM1
    have hr : (90 : ℝ) * Real.pi / 180 = Real.pi / 2 := by ring
    simp only [Affine.mul, rotateAboutPivot, scaleTranslateMatrix, hr,
      Real.cos_pi_div_two, Real.sin_pi_div_two] at he
    norm_num at he

/-! ## C6: a TRANSFORM gesture leaves the committed path lists unchanged -/

lemma popLast_singleton {α : Type} (a : α) : popLast [a] = some ([], a) := rfl

lemma activeCanvas?_elim (s : ACState) (c : Canvas) (h : s.activeCanvas? = some c) :
    0 ≤ s.activeLayer ∧ s.layers[s.activeLayer.toNat]? = some c := by
  unfold ACState.activeCanvas? at h
  by_cases h0 : 0 ≤ s.activeLayer
  · rw [if_pos h0] at h
    exact ⟨h0, h⟩
  · rw [if_neg h0] at h
    exact absurd h (by simp)

lemma layerPaths_set_self (s : ACState) (c : Canvas) (h : s.activeCanvas? = some c) :
    (s.layers.map Canvas.paths).set s.activeLayer.toNat c.paths =
      s.layers.map Canvas.paths := by
  obtain ⟨h0, hget⟩ := activeCanvas?_elim s c h
  apply List.set_self_of_getElem?
  rw [List.getElem?_map, hget]
  rfl

lemma handleDown_transform (x y : ℝ) (s : ACState) (c0 : Canvas)
    (hmode : s.mode = Mode.TRANSFORM) (hc : s.activeCanvas? = some c0) :
    ∃ t, handleDown x y s = some t ∧
      TransformGestureInv s c0
        (PathEntry.strokePath [Point.make (some x) (some y)]) t := by
  simp only [handleDown, hc, hmode]
  rw [if_neg (by decide), if_neg (by decide)]
  refine ⟨_, rfl, ?_, rfl, ?_, ⟨_, updActive_activeCanvas s c0 _ hc, rfl⟩, ?_⟩
  · exact hmode
  · rfl
  · exact updActive_layerPaths s _

lemma handleMove_transform_inv (measureText : String → ℝ) (x y : ℝ)
    (s0 : ACState) (c0 : Canvas) (p0 : Point) (t : ACState)
    (hinv : TransformGestureInv s0 c0 (PathEntry.strokePath [p0]) t) :
    ∃ t', handleMove measureText x y t = some t' ∧
      TransformGestureInv s0 c0 (PathEntry.strokePath [p0]) t' := by
  obtain ⟨hmode, hdown, hact, ⟨ct, hct, hpaths⟩, hmap⟩ := hinv
  simp only [handleMove, hdown, Bool.not_true, hct, hmode]
  rw [if_neg Bool.false_ne_true, if_neg (by decide), if_neg (by decide),
    if_neg (by decide), if_pos trivial]
  simp only [transformStep, hpaths, popLast_concat, popLast_singleton]
  refine ⟨_, rfl, ?_, ?_, ?_, ⟨_, updActive_activeCanvas t ct _ hct, ?_⟩, ?_⟩
  · exact hmode
  · exact hdown
  · exact hact
  · rfl
  · rw [updActive_layerPaths, hmap, hact, List.set_set]
    exact rfl

lemma foldl_moves_transform_inv (measureText : String → ℝ)
    (s0 : ACState) (c0 : Canvas) (p0 : Point) (moves : List (ℝ × ℝ)) :
    ∀ t : ACState, TransformGestureInv s0 c0 (PathEntry.strokePath [p0]) t →
      ∃ t', moves.foldl (fun acc m => acc.bind (handleMove measureText m.1 m.2))
          (some t) = some t' ∧
        TransformGestureInv s0 c0 (PathEntry.strokePath [p0]) t' := by
  induction moves with
  | nil => exact fun t ht => ⟨t, rfl, ht⟩
  | cons m rest ih =>
      intro t ht
      obtain ⟨t1, h1, ht1⟩ := handleMove_transform_inv measureText m.1 m.2 s0 c0 p0 t ht
      obtain ⟨t', h', ht'⟩ := ih t1 ht1
      refine ⟨t', ?_, ht'⟩
      rw [List.foldl_cons, Option.some_bind, h1]
      exact h'

lemma handleUp_transform (xe ye : ℝ) (s0 : ACState) (c0 : Canvas) (p0 : Point)
    (t : ACState) (hc : s0.activeCanvas? = some c0)
    (hinv : TransformGestureInv s0 c0 (PathEntry.strokePath [p0]) t) :
    ∃ t', handleUp xe ye t = some t' ∧
      t'.layers.map Canvas.paths = s0.layers.map Canvas.paths := by
  obtain ⟨hmode, hdown, hact, ⟨ct, hct, hpaths⟩, hmap⟩ := hinv
  simp only [handleUp, hdown, hct, hmode]
  norm_num
  refine ⟨_, rfl, ?_⟩
  have hdrop : ({ ct with paths := ct.paths.dropLast } : Canvas).paths = c0.paths := by
    rw [hpaths]
    exact List.dropLast_concat
  rw [updActive_layerPaths]
  rw [hdrop, hmap, hact, List.set_set]
  exact layerPaths_set_self s0 c0 hc

/-- C6: a TRANSFORM-mode gesture (down, any number of moves, up) on an
existing active layer never fails, keeps the anchor entry pushed at
pointer-down on top of the active layer's path list across every move, and
after pointer-up leaves every layer's committed path list exactly as it was
before pointer-down: the gesture adds no shape and removes none. -/
theorem c6_transform_gesture_preserves_paths :
    ∀ (measureText : String → ℝ) (s : ACState) (c0 : Canvas) (x0 y0 xe ye : ℝ)
      (moves : List (ℝ × ℝ)),
      s.mode = Mode.TRANSFORM →
      s.activeCanvas? = some c0 →
      (∃ t, (handleDown x0 y0 s).bind
          (fun s1 => moves.foldl
            (fun acc m => acc.bind (handleMove measureText m.1 m.2)) (some s1)) =
          some t ∧
        (∃ ct, t.activeCanvas? = some ct ∧
          ct.paths = c0.paths ++
            [PathEntry.strokePath [Point.make (some x0) (some y0)]])) ∧
      (∃ s', runGesture measureText x0 y0 moves xe ye s = some s' ∧
        s'.layers.map Canvas.paths = s.layers.map Canvas.paths) := by
  intro measureText s c0 x0 y0 xe ye moves hmode hc
  obtain ⟨t0, hdown, hinv0⟩ := handleDown_transform x0 y0 s c0 hmode hc
  obtain ⟨t1, hfold, hinv1⟩ :=
    foldl_moves_transform_inv measureText s c0 (Point.make (some x0) (some y0))
      moves t0 hinv0
  have hmid : (handleDown x0 y0 s).bind
      (fun s1 => moves.foldl
        (fun acc m => acc.bind (handleMove measureText m.1 m.2)) (some s1)) =
      some t1 := by
    rw [hdown, Option.some_bind]
    exact hfold
  refine ⟨⟨t1, hmid, ?_⟩, ?_⟩
  · exact hinv1.2.2.2.1
  · obtain ⟨t2, hup, hpres⟩ :=
      handleUp_transform xe ye s c0 (Point.make (some x0) (some y0)) t1 hc hinv1
    refine ⟨t2, ?_, hpres⟩
    unfold runGesture
    rw [hmid, Option.some_bind]
    exact hup

/-- Witness for C6: in TRANSFORM mode on a fresh instance, a drag from
`(5, 5)` through `(20, 30)` to `(40, 50)` keeps the anchor mid-gesture and
leaves the committed path lists untouched. -/
theorem c6_transform_gesture_preserves_paths_witness :
    (∃ t, (handleDown 5 5 { ACState.init (some 300) (some 300) with
          mode := Mode.TRANSFORM }).bind
        (fun s1 => [((20 : ℝ), (30 : ℝ))].foldl
          (fun acc m => acc.bind (handleMove (fun _ => 0) m.1 m.2)) (some s1)) =
        some t ∧
      (∃ ct, t.activeCanvas? = some ct ∧
        ct.paths = (Canvas.make (some 300) (some 300)).paths ++
          [PathEntry.strokePath [Point.make (some 5) (some 5)]])) ∧
    (∃ s', runGesture (fun _ => 0) 5 5 [((20 : ℝ), (30 : ℝ))] 40 50
        { ACState.init (some 300) (some 300) with mode := Mode.TRANSFORM } =
        some s' ∧
      s'.layers.map Canvas.paths =
        ({ ACState.init (some 300) (some 300) with
            mode := Mode.TRANSFORM } : ACState).layers.map Canvas.paths) :=
  c6_transform_gesture_preserves_paths (fun _ => 0)
    { ACState.init (some 300) (some 300) with mode := Mode.TRANSFORM }
    (Canvas.make (some 300) (some 300)) 5 5 40 50 [((20 : ℝ), (30 : ℝ))]
    rfl rfl

/-! ## C7: a FIGURE gesture commits exactly one finalized shape -/

lemma figureStep_move_paths (figure : String) (x y : ℝ) (d : List RenderCmd)
    (c0paths : List PathEntry) (p0 : Point) (ct : Canvas)
    (hpaths : ct.paths = c0paths ++ [PathEntry.strokePath [p0]]) :
    ∃ c', figureStep Phase.move figure x y (some d) ct = some c' ∧
      c'.paths = c0paths ++ [PathEntry.strokePath [p0]] := by
  simp only [figureStep, hpaths, popLast_concat, popLast_singleton]
  by_cases h1 : figure = Figure.RECTANGLE
  · rw [if_pos h1, if_neg (by decide)]
    exact ⟨_, rfl, rfl⟩
  · rw [if_neg h1]
    by_cases h2 : figure = Figure.CIRCLE
    · rw [if_pos h2, if_neg (by decide)]
      exact ⟨_, rfl, rfl⟩
    · rw [if_neg h2]
      by_cases h3 : figure = Figure.LINE
      · rw [if_pos h3, if_neg (by decide)]
        exact ⟨_, rfl, rfl⟩
      · rw [if_neg h3]
        exact ⟨_, rfl, rfl⟩

lemma figureStep_up_paths (figure : String) (x y : ℝ) (d : List RenderCmd)
    (c0paths : List PathEntry) (p0 : Point) (ct : Canvas)
    (hpaths : ct.paths = c0paths ++ [PathEntry.strokePath [p0]]) :
    ∃ c', figureStep Phase.up figure x y (some d) ct = some c' ∧
      ((figure = Figure.RECTANGLE →
        c'.paths = c0paths ++ [PathEntry.rect
          (Rectangle.make (some p0.x) (some p0.y)
            (some ((Point.getOffsetPoint p0 (Point.make (some x) (some y))).x))
            (some ((Point.getOffsetPoint p0 (Point.make (some x) (some y))).y)))]) ∧
       (figure = Figure.CIRCLE →
        c'.paths = c0paths ++ [PathEntry.circle
          (Circle.make (some p0.x) (some p0.y)
            (some (Point.getDistance p0 (Point.make (some x) (some y)))))]) ∧
       (figure = Figure.LINE →
        c'.paths = c0paths ++
          [PathEntry.line ⟨p0, Point.make (some x) (some y)⟩])) := by
  simp only [figureStep, hpaths, popLast_concat, popLast_singleton]
  by_cases h1 : figure = Figure.RECTANGLE
  · rw [if_pos h1, if_pos trivial]
    refine ⟨_, rfl, fun _ => rfl, fun hc => ?_, fun hc => ?_⟩
    · rw [h1] at hc
      exact absurd hc (by decide)
    · rw [h1] at hc
      exact absurd hc (by decide)
  · rw [if_neg h1]
    by_cases h2 : figure = Figure.CIRCLE
    · rw [if_pos h2, if_pos trivial]
      refine ⟨_, rfl, fun hc => absurd h2 (hc ▸ (by decide)), fun _ => rfl,
        fun hc => ?_⟩
      · rw [h2] at hc
        exact absurd hc (by decide)
    · rw [if_neg h2]
      by_cases h3 : figure = Figure.LINE
      · rw [if_pos h3, if_pos trivial]
        refine ⟨_, rfl, fun hc => absurd h3 (hc ▸ (by decide)), fun hc => ?_,
          fun _ => rfl⟩
        · rw [h3] at hc
          exact absurd hc (by decide)
      · rw [if_neg h3]
        exact ⟨_, rfl, fun hc => absurd hc h1, fun hc => absurd hc h2,
          fun hc => absurd hc h3⟩

lemma handleDown_figure (x y : ℝ) (s : ACState) (c0 : Canvas)
    (hmode : s.mode = Mode.FIGURE) (hc : s.activeCanvas? = some c0) :
    ∃ t, handleDown x y s = some t ∧
      FigureGestureInv s c0
        (PathEntry.strokePath [Point.make (some x) (some y)]) t := by
  simp only [handleDown, hc, hmode]
  rw [if_neg (by decide), if_pos trivial]
  refine ⟨_, rfl, rfl, rfl, rfl, rfl, ⟨_, rfl⟩,
    ⟨_, updActive_activeCanvas _ c0 _ hc, rfl⟩, ?_⟩
  exact updActive_layerPaths _ _

lemma handleMove_figure_inv (measureText : String → ℝ) (x y : ℝ)
    (s0 : ACState) (c0 : Canvas) (p0 : Point) (t : ACState)
    (hinv : FigureGestureInv s0 c0 (PathEntry.strokePath [p0]) t) :
    ∃ t', handleMove measureText x y t = some t' ∧
      FigureGestureInv s0 c0 (PathEntry.strokePath [p0]) t' := by
  obtain ⟨hmode, hfig, hdown, hact, ⟨d, hdata⟩, ⟨ct, hct, hpaths⟩, hmap⟩ := hinv
  obtain ⟨c', hstep, hcp⟩ :=
    figureStep_move_paths t.figure x y d c0.paths p0 ct hpaths
  simp only [handleMove, hdown, Bool.not_true, hct, hmode, hdata]
  rw [if_neg Bool.false_ne_true, if_neg (by decide), if_neg (by decide),
    if_pos trivial, hstep]
  refine ⟨_, rfl, ?_, ?_, ?_, ?_, ⟨d, ?_⟩,
    ⟨c', updActive_activeCanvas t ct c' hct, hcp⟩, ?_⟩
  · exact hmode
  · exact hfig
  · exact hdown
  · exact hact
  · exact hdata
  · rw [updActive_layerPaths, hmap, hact, List.set_set, hcp]

lemma foldl_moves_figure_inv (measureText : String → ℝ)
    (s0 : ACState) (c0 : Canvas) (p0 : Point) (moves : List (ℝ × ℝ)) :
    ∀ t : ACState, FigureGestureInv s0 c0 (PathEntry.strokePath [p0]) t →
      ∃ t', moves.foldl (fun acc m => acc.bind (handleMove measureText m.1 m.2))
          (some t) = some t' ∧
        FigureGestureInv s0 c0 (PathEntry.strokePath [p0]) t' := by
  induction moves with
  | nil => exact fun t ht => ⟨t, rfl, ht⟩
  | cons m rest ih =>
      intro t ht
      obtain ⟨t1, h1, ht1⟩ := handleMove_figure_inv measureText m.1 m.2 s0 c0 p0 t ht
      obtain ⟨t', h', ht'⟩ := ih t1 ht1
      refine ⟨t', ?_, ht'⟩
      rw [List.foldl_cons, Option.some_bind, h1]
      exact h'

/-- The general FIGURE-gesture property, used by the claim theorem: any
down → moveⁿ → up in FIGURE mode with a valid figure kind succeeds and
appends exactly one finalized shape — never a point-array entry — to the
active layer's committed list, leaving every other layer untouched. -/
lemma figure_gesture_general (measureText : String → ℝ) (s : ACState)
    (c0 : Canvas) (x0 y0 xe ye : ℝ) (moves : List (ℝ × ℝ))
    (hmode : s.mode = Mode.FIGURE) (hc : s.activeCanvas? = some c0)
    (hfig : s.figure = Figure.RECTANGLE ∨ s.figure = Figure.CIRCLE ∨
      s.figure = Figure.LINE) :
    ∃ s' shape, runGesture measureText x0 y0 moves xe ye s = some s' ∧
      s'.layers.map Canvas.paths =
        (s.layers.map Canvas.paths).set s.activeLayer.toNat
          (c0.paths ++ [shape]) ∧
      (s.figure = Figure.RECTANGLE → shape = PathEntry.rect
        (Rectangle.make (some x0) (some y0)
          (some (xe - x0)) (some (ye - y0)))) ∧
      (s.figure = Figure.CIRCLE → shape = PathEntry.circle
        (Circle.make (some x0) (some y0)
          (some (Point.getDistance (Point.make (some x0) (some y0))
            (Point.make (some xe) (some ye)))))) ∧
      (s.figure = Figure.LINE → shape = PathEntry.line
        ⟨Point.make (some x0) (some y0), Point.make (some xe) (some ye)⟩) := by
  obtain ⟨t0, hdown, hinv0⟩ := handleDown_figure x0 y0 s c0 hmode hc
  obtain ⟨t1, hfold, hinv1⟩ :=
    foldl_moves_figure_inv measureText s c0 (Point.make (some x0) (some y0))
      moves t0 hinv0
  obtain ⟨hmode1, hfig1, hdown1, hact1, ⟨d, hdata1⟩, ⟨ct, hct1, hpaths1⟩, hmap1⟩ :=
    hinv1
  obtain ⟨c', hstep, hrect, hcirc, hline⟩ :=
    figureStep_up_paths t1.figure xe ye d c0.paths
      (Point.make (some x0) (some y0)) ct hpaths1
  have hmid : (handleDown x0 y0 s).bind
      (fun s1 => moves.foldl
        (fun acc m => acc.bind (handleMove measureText m.1 m.2)) (some s1)) =
      some t1 := by
    rw [hdown, Option.some_bind]
    exact hfold
  have hup : ∃ t2, handleUp xe ye t1 = some t2 ∧
      t2.layers.map Canvas.paths =
        (t1.layers.map Canvas.paths).set t1.activeLayer.toNat c'.paths := by
    simp only [handleUp, hdown1, Bool.not_true, hct1, hmode1, hdata1]
    rw [if_neg Bool.false_ne_true, if_neg (by decide), if_pos trivial, hstep]
    exact ⟨_, rfl, updActive_layerPaths _ _⟩
  obtain ⟨t2, hupEq, hmap2⟩ := hup
  have hrun : runGesture measureText x0 y0 moves xe ye s = some t2 := by
    unfold runGesture
    rw [hmid, Option.some_bind]
    exact hupEq
  rcases hfig with hf | hf | hf
  all_goals rw [hf]
  · refine ⟨t2, _, hrun, ?_, fun _ => rfl, fun hcon => absurd hcon (by decide),
      fun hcon => absurd hcon (by decide)⟩
    rw [hmap2, hmap1, hact1, List.set_set, hrect (hfig1.trans hf)]
    exact rfl
  · refine ⟨t2, _, hrun, ?_, fun hcon => absurd hcon (by decide), fun _ => rfl,
      fun hcon => absurd hcon (by decide)⟩
    rw [hmap2, hmap1, hact1, List.set_set, hcirc (hfig1.trans hf)]
    exact rfl
  · refine ⟨t2, _, hrun, ?_, fun hcon => absurd hcon (by decide),
      fun hcon => absurd hcon (by decide), fun _ => rfl⟩
    rw [hmap2, hmap1, hact1, List.set_set, hline (hfig1.trans hf)]

lemma scale_two_one (measureText : String → ℝ) (s : ACState) (c : Canvas)
    (hc : s.activeCanvas? = some c) :
    ∃ s2 c2, ACState.scale measureText s (some 2) (some 1) = some s2 ∧
      s2.activeCanvas? = some c2 ∧
      c2.transforms = { c.transforms with scale := ⟨2, 1⟩ } ∧
      c2.paths = c.paths ∧
      c2.ctx.surface = (Ctx.drawAll
        { c.ctx with
            surface := []
            matrix := pixelMatrix c.ctx.matrix Transform.SCALE c2.transforms
              (Canvas.getCenterPoint measureText c) } c.paths).surface ∧
      s2.layers.map Canvas.paths = s.layers.map Canvas.paths := by
  have hts : (Canvas.transform measureText Transform.SCALE
      [some 2, some 1] c).transforms = { c.transforms with scale := ⟨2, 1⟩ } := by
    show applyTransformAmounts (jsToLower Transform.SCALE)
      [some 2, some 1] c.transforms = _
    unfold applyTransformAmounts
    rw [if_neg (by decide), if_pos (by decide), if_neg (by norm_num)]
    rfl
  refine ⟨s.updActive (Canvas.transform measureText Transform.SCALE
      [some 2, some 1] c),
    Canvas.transform measureText Transform.SCALE [some 2, some 1] c,
    by simp only [ACState.scale, hc],
    updActive_activeCanvas s c _ hc, hts, rfl, rfl, ?_⟩
  rw [updActive_layerPaths]
  exact layerPaths_set_self s c hc

/-- C7: a FIGURE-mode gesture commits exactly one new, finalized shape —
never a partial point-array entry — built from the anchor point and the
final pointer position; concretely, on a fresh 300 × 300 layer in FIGURE
mode with the RECTANGLE kind, down at (10, 10), move to (60, 40), up at
(60, 40) leaves the committed list holding exactly one
`Rectangle{top: 10, left: 10, width: 50, height: 30}`; and a subsequent
`scale(2, 1)` sets `TransformState.scale` to `(2, 1)` and performs a full
clear-and-replay of the committed list without adding or removing shapes. -/
theorem c7_figure_gesture_and_scale :
    (∀ (measureText : String → ℝ) (s : ACState) (c0 : Canvas)
      (x0 y0 xe ye : ℝ) (moves : List (ℝ × ℝ)),
      s.mode = Mode.FIGURE →
      s.activeCanvas? = some c0 →
      (s.figure = Figure.RECTANGLE ∨ s.figure = Figure.CIRCLE ∨
        s.figure = Figure.LINE) →
      ∃ s' shape, runGesture measureText x0 y0 moves xe ye s = some s' ∧
        s'.layers.map Canvas.paths =
          (s.layers.map Canvas.paths).set s.activeLayer.toNat
            (c0.paths ++ [shape]) ∧
        (s.figure = Figure.RECTANGLE → shape = PathEntry.rect
          (Rectangle.make (some x0) (some y0)
            (some (xe - x0)) (some (ye - y0)))) ∧
        (s.figure = Figure.CIRCLE → shape = PathEntry.circle
          (Circle.make (some x0) (some y0)
            (some (Point.getDistance (Point.make (some x0) (some y0))
              (Point.make (some xe) (some ye)))))) ∧
        (s.figure = Figure.LINE → shape = PathEntry.line
          ⟨Point.make (some x0) (some y0), Point.make (some xe) (some ye)⟩)) ∧
    (∃ s1, runGesture (fun _ => 0) 10 10 [((60 : ℝ), (40 : ℝ))] 60 40
        { ACState.init (some 300) (some 300) with mode := Mode.FIGURE } =
        some s1 ∧
      s1.layers.map Canvas.paths =
        [[PathEntry.rect (Rectangle.make (some 10) (some 10)
          (some 50) (some 30))]] ∧
      (Rectangle.make (some 10) (some 10) (some 50) (some 30)).top = 10 ∧
      (Rectangle.make (some 10) (some 10) (some 50) (some 30)).left = 10 ∧
      (Rectangle.make (some 10) (some 10) (some 50) (some 30)).width = 50 ∧
      (Rectangle.make (some 10) (some 10) (some 50) (some 30)).height = 30) ∧
    (∀ (measureText : String → ℝ) (s : ACState) (c : Canvas),
      s.activeCanvas? = some c →
      ∃ s2 c2, ACState.scale measureText s (some 2) (some 1) = some s2 ∧
        s2.activeCanvas? = some c2 ∧
        c2.transforms = { c.transforms with scale := ⟨2, 1⟩ } ∧
        c2.paths = c.paths ∧
        c2.ctx.surface = (Ctx.drawAll
          { c.ctx with
              surface := []
              matrix := pixelMatrix c.ctx.matrix Transform.SCALE c2.transforms
                (Canvas.getCenterPoint measureText c) } c.paths).surface ∧
        s2.layers.map Canvas.paths = s.layers.map Canvas.paths) := by
  refine ⟨figure_gesture_general, ?_, scale_two_one⟩
  obtain ⟨s1, shape, hrun, hmap, hshape, _, _⟩ :=
    figure_gesture_general (fun _ => 0)
      { ACState.init (some 300) (some 300) with mode := Mode.FIGURE }
      (Canvas.make (some 300) (some 300)) 10 10 60 40 [((60 : ℝ), (40 : ℝ))]
      rfl rfl (Or.inl rfl)
  have hsh := hshape rfl
  have hR : Rectangle.make (some 10) (some 10)
      (some ((60 : ℝ) - 10)) (some ((40 : ℝ) - 10)) =
      Rectangle.make (some 10) (some 10) (some 50) (some 30) := by
    norm_num
  refine ⟨s1, hrun, ?_, rfl, rfl, ?_, ?_⟩
  · rw [hmap, hsh, hR]
    exact rfl
  · norm_num [Rectangle.make]
  · norm_num [Rectangle.make]

/-- Witness for C7: the rectangle gesture of the concrete scenario through
the general clause, and the `scale(2, 1)` clause on the fresh instance. -/
theorem c7_figure_gesture_and_scale_witness :
    (∃ s' shape, runGesture (fun _ => 0) 10 10 [((60 : ℝ), (40 : ℝ))] 60 40
        { ACState.init (some 300) (some 300) with mode := Mode.FIGURE } =
        some s' ∧
      s'.layers.map Canvas.paths =
        (({ ACState.init (some 300) (some 300) with
            mode := Mode.FIGURE } : ACState).layers.map Canvas.paths).set
          (({ ACState.init (some 300) (some 300) with
            mode := Mode.FIGURE } : ACState).activeLayer.toNat)
          ((Canvas.make (some 300) (some 300)).paths ++ [shape]) ∧
      (({ ACState.init (some 300) (some 300) with
          mode := Mode.FIGURE } : ACState).figure = Figure.RECTANGLE →
        shape = PathEntry.rect (Rectangle.make (some 10) (some 10)
          (some ((60 : ℝ) - 10)) (some ((40 : ℝ) - 10)))) ∧
      (({ ACState.init (some 300) (some 300) with
          mode := Mode.FIGURE } : ACState).figure = Figure.CIRCLE →
        shape = PathEntry.circle (Circle.make (some 10) (some 10)
          (some (Point.getDistance (Point.make (some 10) (some 10))
            (Point.make (some 60) (some 40)))))) ∧
      (({ ACState.init (some 300) (some 300) with
          mode := Mode.FIGURE } : ACState).figure = Figure.LINE →
        shape = PathEntry.line
          ⟨Point.make (some 10) (some 10), Point.make (some 60) (some 40)⟩)) ∧
    (∃ s2 c2, ACState.scale (fun _ => 0) (ACState.init (some 300) (some 300))
        (some 2) (some 1) = some s2 ∧
      s2.activeCanvas? = some c2 ∧
      c2.transforms = { (Canvas.make (some 300) (some 300)).transforms with
        scale := ⟨2, 1⟩ } ∧
      c2.paths = (Canvas.make (some 300) (some 300)).paths ∧
      c2.ctx.surface = (Ctx.drawAll
        { (Canvas.make (some 300) (some 300)).ctx with
            surface := []
            matrix := pixelMatrix (Canvas.make (some 300) (some 300)).ctx.matrix
              Transform.SCALE c2.transforms
              (Canvas.getCenterPoint (fun _ => 0)
                (Canvas.make (some 300) (some 300))) }
        (Canvas.make (some 300) (some 300)).paths).surface ∧
      s2.layers.map Canvas.paths =
        (ACState.init (some 300) (some 300)).layers.map Canvas.paths) :=
  ⟨c7_figure_gesture_and_scale.1 (fun _ => 0)
      { ACState.init (some 300) (some 300) with mode := Mode.FIGURE }
      (Canvas.make (some 300) (some 300)) 10 10 60 40 [((60 : ℝ), (40 : ℝ))]
      rfl rfl (Or.inl rfl),
   c7_figure_gesture_and_scale.2.2 (fun _ => 0)
      (ACState.init (some 300) (some 300)) (Canvas.make (some 300) (some 300))
      rfl⟩

end ArtCanvas
